import Mathlib

/-!
Verification development for the material-graph analysis core of a glTF
exporter (`gltf2_blender_search_node_tree.py` and
`gltf2_blender_gather_materials_specular.py`).

The shader node graph is shallowly embedded: nodes are records addressed by
numeric ids, sockets are addressed by `(node id, socket index)` pairs, and
links are directed edges between an output socket and an input socket.
Python float values are modelled as exact integer fractions (type `Q`
below); the code only compares, scales, negates and divides them, so
this is a faithful abstraction of the numeric control flow.  Python runtime exceptions
(AttributeError on a missing attribute, KeyError / IndexError on a failed
collection lookup, assertion failures, StopIteration) are modelled with an
`Except PyErr` result; recursive traversals take a fuel argument and report
`outOfFuel` when it runs out, so every definition is total and executable.
-/

/-- Python runtime errors that the embedded code can raise, plus the
`outOfFuel` marker used to make unbounded recursion total. -/
inductive PyErr where
  | attributeError
  | keyError
  | indexError
  | typeError
  | assertionError
  | stopIteration
  | outOfFuel
deriving DecidableEq, Repr

/-- Socket value kinds (`bpy` socket `type` strings used by the source:
VALUE, RGBA, VECTOR, SHADER; OTHER stands for any further kind). -/
inductive SockTy where
  | VALUE
  | RGBA
  | VECTOR
  | SHADER
  | OTHER
deriving DecidableEq, Repr

/-- Python float values are modelled as exact fractions of integers,
kept unnormalized (the kernel can then evaluate all arithmetic).  The
denominator is positive for every value built by the embedding: literals
use positive denominators and every operation below preserves the sign.
Python comparisons (`==`, `<`, `>`) are value comparisons, modelled by
cross multiplication. -/
structure Q where
  n : Int
  d : Int
deriving DecidableEq, Repr

instance (k : Nat) : OfNat Q k := ⟨⟨k, 1⟩⟩

namespace Q

/-- Value equality (`==` between Python floats). -/
def qeq (a b : Q) : Bool := a.n * b.d == b.n * a.d

/-- Value order (`<` between Python floats; denominators positive). -/
def qlt (a b : Q) : Bool := a.n * b.d < b.n * a.d

/-- Multiplication. -/
def mul (a b : Q) : Q := ⟨a.n * b.n, a.d * b.d⟩

/-- Addition. -/
def add (a b : Q) : Q := ⟨a.n * b.d + b.n * a.d, a.d * b.d⟩

/-- Subtraction. -/
def sub (a b : Q) : Q := ⟨a.n * b.d - b.n * a.d, a.d * b.d⟩

/-- Negation. -/
def neg (a : Q) : Q := ⟨-a.n, a.d⟩

/-- Absolute value. -/
def qabs (a : Q) : Q := ⟨if a.n < 0 then -a.n else a.n, a.d⟩

/-- Division (keeps the denominator positive; never applied to a zero
divisor by the guarded source paths). -/
def div (a b : Q) : Q :=
  if b.n < 0 then ⟨-(a.n * b.d), a.d * (-b.n)⟩ else ⟨a.n * b.d, a.d * b.n⟩

end Q

/-- A Python value stored in a socket `default_value`: a bare float or an
array of floats (colors and vectors). -/
inductive Val where
  | num (x : Q)
  | arr (xs : List Q)
deriving DecidableEq, Repr

/-- Pointwise Python `==` between float lists (tuples compare equal to
equally sized, value-equal sequences). -/
def listQeq : List Q → List Q → Bool
  | [], [] => true
  | x :: xs, y :: ys => x.qeq y && listQeq xs ys
  | _, _ => false

/-- Python `value == x` where `value` may be absent (`None`), a float or
a float list: only a float with the same value compares equal. -/
def pyEqNumOpt (c : Option Val) (x : Q) : Bool :=
  match c with
  | some (.num v) => v.qeq x
  | _ => false

/-- A node socket: name, identifier, value kind and default value. -/
structure Socket where
  name : String := ""
  identifier : String := ""
  ty : SockTy := .VALUE
  default_value : Val := .num 0
deriving DecidableEq, Repr

/-- Node ids index into `Graph.nodes`. -/
abbrev NodeId := Nat

/-- A shader node.  `ntype` is the `bpy` node `type` string ("MATH",
"MIX", "RGB", "VALUE", "REROUTE", "GROUP", "GROUP_INPUT", "GROUP_OUTPUT",
"VERTEX_COLOR", "ATTRIBUTE", "TEX_IMAGE", "SEPXYZ", "VECT_MATH",
"TANGENT", "BSDF_PRINCIPLED", ...).  Kind specific parameters are carried
as plain fields, defaulted for nodes that do not have them; `node_tree`
lists the member node ids of a group node's tree; `image` is the image
datablock name of a texture node (`none` when no image is assigned). -/
structure Node where
  ntype : String := ""
  operation : String := ""
  data_type : String := ""
  blend_type : String := ""
  attribute_type : String := ""
  attribute_name : String := ""
  layer_name : String := ""
  direction_type : String := ""
  uv_map : String := ""
  vector_type : String := ""
  image : Option String := none
  inputs : List Socket := []
  outputs : List Socket := []
  node_tree : Option (List NodeId) := none
deriving DecidableEq, Repr

instance : Inhabited Node := ⟨{}⟩

/-- A link from `(from_node, from_socket)` (an output socket) to
`(to_node, to_socket)` (an input socket). -/
structure Link where
  from_node : NodeId
  from_socket : Nat
  to_node : NodeId
  to_socket : Nat
deriving DecidableEq, Repr

/-- The host shader graph: a node store plus the link list.  The order of
`links` fixes the order of each socket's `links` collection. -/
structure Graph where
  nodes : List Node := []
  links : List Link := []
deriving Repr

namespace Graph

/-- Node lookup by id (total; a missing id yields the inert default node,
which has no sockets and hence no behaviour). -/
def node (g : Graph) (i : NodeId) : Node := g.nodes.getD i default

/-- Input socket lookup by `(node, index)`. -/
def inSock (g : Graph) (r : NodeId × Nat) : Socket :=
  (g.node r.1).inputs.getD r.2 {}

/-- Output socket lookup by `(node, index)`. -/
def outSock (g : Graph) (r : NodeId × Nat) : Socket :=
  (g.node r.1).outputs.getD r.2 {}

/-- All links arriving at the input socket `r` (`socket.links` for an
input socket). -/
def inLinks (g : Graph) (r : NodeId × Nat) : List Link :=
  g.links.filter (fun l => l.to_node = r.1 ∧ l.to_socket = r.2)

/-- All links leaving the output socket `r` (`socket.links` for an output
socket). -/
def outLinks (g : Graph) (r : NodeId × Nat) : List Link :=
  g.links.filter (fun l => l.from_node = r.1 ∧ l.from_socket = r.2)

/-- `socket.is_linked` for an input socket. -/
def inIsLinked (g : Graph) (r : NodeId × Nat) : Bool :=
  !(g.inLinks r).isEmpty

/-- `socket.is_linked` for an output socket. -/
def outIsLinked (g : Graph) (r : NodeId × Nat) : Bool :=
  !(g.outLinks r).isEmpty

end Graph

/-- An input-socket selector, as accepted by
`NodeNav.select_input_socket`: a positional index or a name (a leading
`#` selects by socket identifier).  The source also accepts a socket
object already belonging to the node; no caller in the analysed code uses
that form. -/
inductive Sel where
  | idx (i : Nat)
  | name (s : String)
deriving DecidableEq, Repr

/-- The traversal cursor (class `NodeNav`).  `stack` holds the
`(group node, socket)` pairs descended through, innermost (top of the
Python list, i.e. the next one popped) first.  Because the embedding is
functional, `copy`/`assign` are plain value passing and need no
definitions of their own. -/
structure NodeNav where
  node : NodeId
  in_socket : Option (NodeId × Nat) := none
  out_socket : Option (NodeId × Nat) := none
  stack : List (NodeId × Option (NodeId × Nat)) := []
  moved : Bool := false
deriving DecidableEq, Repr

namespace NodeNav

/-- `NodeNav.select_input_socket`.  A numeric index out of range raises
IndexError; a name that matches no input (also after the failed
identifier scan for a `#`-form name falls through to the name lookup with
the full string) raises KeyError, mirroring `self.node.inputs[in_soc]`. -/
def select_input_socket (g : Graph) (nav : NodeNav) : Option Sel → Except PyErr NodeNav
  | none => .ok nav
  | some (.idx i) =>
      if i < (g.node nav.node).inputs.length then
        .ok { nav with in_socket := some (nav.node, i) }
      else .error .indexError
  | some (.name s) =>
      let byName : Except PyErr NodeNav :=
        match (g.node nav.node).inputs.findIdx? (fun sock => sock.name = s) with
        | some i => .ok { nav with in_socket := some (nav.node, i) }
        | none => .error .keyError
      if s.startsWith "#" then
        match (g.node nav.node).inputs.findIdx? (fun sock => sock.identifier = s.drop 1) with
        | some i => .ok { nav with in_socket := some (nav.node, i) }
        | none => byName
      else byName

/-- `NodeNav.get_out_socket_index`: asserts that `out_socket` is set and
scans `self.node.outputs` for it; in the embedding the socket is a
reference, so the scan succeeds exactly when the reference points at an
existing output socket of the current node. -/
def get_out_socket_index (g : Graph) (nav : NodeNav) : Except PyErr Nat :=
  match nav.out_socket with
  | none => .error .assertionError
  | some os =>
      if os.1 = nav.node ∧ os.2 < (g.node nav.node).outputs.length then .ok os.2
      else .error .assertionError

/-- `NodeNav.descend`: enter a group node through its `out_socket`,
repositioning to the group tree's GROUP_OUTPUT node's input of the same
ordinal and pushing `(group node, exited socket)` onto the stack. -/
def descend (g : Graph) (nav : NodeNav) : Except PyErr NodeNav :=
  if (g.node nav.node).ntype = "GROUP" ∧ (g.node nav.node).node_tree ≠ none
      ∧ nav.out_socket ≠ none then
    match nav.get_out_socket_index g with
    | .error e => .error e
    | .ok i =>
      let tree := ((g.node nav.node).node_tree).getD []
      match tree.find? (fun nid => (g.node nid).ntype = "GROUP_OUTPUT") with
      | none => .error .stopIteration
      | some gout =>
          if i < (g.node gout).inputs.length then
            .ok { nav with
                  stack := (nav.node, nav.out_socket) :: nav.stack,
                  node := gout,
                  in_socket := some (gout, i),
                  out_socket := none }
          else .error .indexError
  else .ok nav

/-- `NodeNav.ascend`: leave a group through a GROUP_INPUT node, popping
the stack and repositioning to the enclosing group node's input of the
same ordinal. -/
def ascend (g : Graph) (nav : NodeNav) : Except PyErr NodeNav :=
  if nav.stack ≠ [] ∧ (g.node nav.node).ntype = "GROUP_INPUT" ∧ nav.out_socket ≠ none then
    match nav.get_out_socket_index g with
    | .error e => .error e
    | .ok i =>
      match nav.stack with
      | [] => .error .assertionError
      | (gn, gs) :: rest =>
          if i < (g.node gn).inputs.length then
            .ok { nav with node := gn, out_socket := gs, stack := rest, in_socket := some (gn, i) }
          else .error .indexError
  else .ok nav

/-- `NodeNav.move_back`: clear `moved`, select the input socket, and if it
is linked follow its first incoming link, then keep moving through
REROUTE / GROUP / GROUP_INPUT nodes.  The recursion of the source is paid
for with `fuel`. -/
def move_back (g : Graph) : Nat → NodeNav → Option Sel → Except PyErr NodeNav
  | fuel, nav0, sel =>
    match ({ nav0 with moved := false } : NodeNav).select_input_socket g sel with
    | .error e => .error e
    | .ok nav =>
      match nav.in_socket with
      | none => .ok nav
      | some is =>
        match g.inLinks is with
        | [] => .ok nav
        | link :: _ =>
          let nav2 : NodeNav :=
            { nav with node := link.from_node, out_socket := some (link.from_node, link.from_socket), in_socket := none, moved := true }
          let t := (g.node nav2.node).ntype
          if t = "REROUTE" ∨ t = "GROUP" ∨ t = "GROUP_INPUT" then
            match fuel with
            | 0 => .error .outOfFuel
            | fuel' + 1 =>
              if t = "REROUTE" then
                move_back g fuel' nav2 (some (.idx 0))
              else if t = "GROUP" then
                match nav2.descend g with
                | .error e => .error e
                | .ok nav3 => move_back g fuel' nav3 none
              else
                match nav2.ascend g with
                | .error e => .error e
                | .ok nav3 => move_back g fuel' nav3 none
          else .ok nav2

/-- `NodeNav.peek_back`: select on a copy, then move back; the caller's
cursor is untouched (value semantics make the copy implicit). -/
def peek_back (g : Graph) (fuel : Nat) (nav : NodeNav) (sel : Option Sel) :
    Except PyErr NodeNav :=
  match nav.select_input_socket g sel with
  | .error e => .error e
  | .ok s => s.move_back g fuel none

/-- `NodeNav.get_constant`.  Returns the updated cursor (selection is the
only mutation the source performs on `self`) together with the constant,
`none` when the input is not a recognized constant.

Unlinked sockets yield their type-appropriate default (colors drop the
alpha channel, unlinked SHADER sockets read as black); `list(...)` applied
to a non-array default raises TypeError, as in Python.  For a linked
socket the source peeks one node back and recognizes a bare RGB node for
color inputs; for scalar inputs fed by a bare VALUE node the source
executes `nav.node.out_socket.default_value`, and a `bpy` node object has
no attribute `out_socket` (the cursor, `nav`, has; its `node` does not),
so that branch raises AttributeError. -/
def get_constant (g : Graph) (fuel : Nat) (nav0 : NodeNav) (sel : Option Sel) :
    Except PyErr (NodeNav × Option Val) :=
  match nav0.select_input_socket g sel with
  | .error e => .error e
  | .ok nav =>
    match nav.in_socket with
    | none => .ok (nav, none)
    | some is =>
      match g.inLinks is with
      | [] =>
        match (g.inSock is).ty with
        | .RGBA =>
            match (g.inSock is).default_value with
            | .arr xs => .ok (nav, some (.arr (xs.take 3)))
            | .num _ => .error .typeError
        | .SHADER => .ok (nav, some (.arr [0, 0, 0]))
        | .VECTOR =>
            match (g.inSock is).default_value with
            | .arr xs => .ok (nav, some (.arr xs))
            | .num _ => .error .typeError
        | .VALUE => .ok (nav, some ((g.inSock is).default_value))
        | .OTHER => .ok (nav, none)
      | _ :: _ =>
        match nav.peek_back g fuel none with
        | .error e => .error e
        | .ok pk =>
          if pk.moved then
            match (g.inSock is).ty with
            | .RGBA =>
                if (g.node pk.node).ntype = "RGB" then
                  match pk.out_socket with
                  | some os =>
                      match (g.outSock os).default_value with
                      | .arr xs => .ok (nav, some (.arr (xs.take 3)))
                      | .num _ => .error .typeError
                  | none => .error .attributeError
                else .ok (nav, none)
            | .VALUE =>
                if (g.node pk.node).ntype = "VALUE" then
                  .error .attributeError
                else .ok (nav, none)
            | _ => .ok (nav, none)
          else .ok (nav, none)

/-- `NodeNav.get_factor`: a constant, else one constant operand of the
multiply idiom (RGBA-mode MIX node set to MULTIPLY for color inputs, MATH
node set to MULTIPLY for scalar inputs); `none` when neither or both
operands are constants. -/
def get_factor (g : Graph) (fuel : Nat) (nav0 : NodeNav) (sel : Option Sel) :
    Except PyErr (NodeNav × Option Val) :=
  match nav0.select_input_socket g sel with
  | .error e => .error e
  | .ok nav =>
    match nav.in_socket with
    | none => .ok (nav, none)
    | some is =>
      match nav.get_constant g fuel none with
      | .error e => .error e
      | .ok (nav, some fac) => .ok (nav, some fac)
      | .ok (nav, none) =>
        match nav.peek_back g fuel none with
        | .error e => .error e
        | .ok pk =>
          if pk.moved then
            match (g.inSock is).ty with
            | .RGBA =>
                if (g.node pk.node).ntype = "MIX" ∧ (g.node pk.node).data_type = "RGBA"
                    ∧ (g.node pk.node).blend_type = "MULTIPLY" then
                  match pk.get_constant g fuel (some (.name "#A_Color")) with
                  | .error e => .error e
                  | .ok (pk1, x1) =>
                    match pk1.get_constant g fuel (some (.name "#B_Color")) with
                    | .error e => .error e
                    | .ok (_, x2) =>
                      match x1, x2 with
                      | some x1, none => .ok (nav, some x1)
                      | none, some x2 => .ok (nav, some x2)
                      | _, _ => .ok (nav, none)
                else .ok (nav, none)
            | .VALUE =>
                if (g.node pk.node).ntype = "MATH" ∧ (g.node pk.node).operation = "MULTIPLY" then
                  match pk.get_constant g fuel (some (.idx 0)) with
                  | .error e => .error e
                  | .ok (pk1, x1) =>
                    match pk1.get_constant g fuel (some (.idx 1)) with
                    | .error e => .error e
                    | .ok (_, x2) =>
                      match x1, x2 with
                      | some x1, none => .ok (nav, some x1)
                      | none, some x2 => .ok (nav, some x2)
                      | _, _ => .ok (nav, none)
                else .ok (nav, none)
            | _ => .ok (nav, none)
          else .ok (nav, none)

end NodeNav

/-! ## Alpha feature detectors -/

/-- The dict built by `gather_alpha_info`.  It is initialized with the
four keys `alphaMode`, `alphaCutoff`, `alphaFactor`, `alphaColorAttrib`;
the peeling loop, however, stores detected color attributes under the
differently spelled key `alphaColorAttr`, which therefore appears here as
a fifth field (Python dicts grow a fresh key on such an assignment). -/
structure AlphaInfo where
  alphaMode : Option String := none
  alphaCutoff : Option Val := none
  alphaFactor : Option Val := none
  alphaColorAttrib : Option String := none
  alphaColorAttr : Option String := none
deriving DecidableEq, Repr

/-- `detect_alpha_clip`: matches `[Math:Round]` (cutoff 0.5) or the
two-node `1 - (X < cutoff)` / `1 - (cutoff > X)` chain; on success the
returned cursor is the advanced one (`alpha_nav.assign(...)` in the
source), on failure the caller's cursor is returned unchanged together
with `none`. -/
def detect_alpha_clip (g : Graph) (fuel : Nat) (alpha_nav : NodeNav) :
    Except PyErr (NodeNav × Option Val) :=
  match alpha_nav.peek_back g fuel none with
  | .error e => .error e
  | .ok nav =>
    if !nav.moved then .ok (alpha_nav, none)
    else if (g.node nav.node).ntype = "MATH" ∧ (g.node nav.node).operation = "ROUND" then
      match nav.select_input_socket g (some (.idx 0)) with
      | .error e => .error e
      | .ok nav => .ok (nav, some (.num (Q.mk 1 2)))
    else if (g.node nav.node).ntype = "MATH" ∧ (g.node nav.node).operation = "SUBTRACT" then
      match nav.get_constant g fuel (some (.idx 0)) with
      | .error e => .error e
      | .ok (nav, c0) =>
        if pyEqNumOpt c0 1 then
          match nav.peek_back g fuel (some (.idx 1)) with
          | .error e => .error e
          | .ok nav2 =>
            if nav2.moved ∧ (g.node nav2.node).ntype = "MATH" then
              match nav2.get_constant g fuel (some (.idx 0)) with
              | .error e => .error e
              | .ok (nav2, in0) =>
                match nav2.get_constant g fuel (some (.idx 1)) with
                | .error e => .error e
                | .ok (nav2, in1) =>
                  if (g.node nav2.node).operation = "LESS_THAN" ∧ in0 = none ∧ in1 ≠ none then
                    match nav2.select_input_socket g (some (.idx 0)) with
                    | .error e => .error e
                    | .ok nav2 => .ok (nav2, in1)
                  else if (g.node nav2.node).operation = "GREATER_THAN" ∧ in0 ≠ none ∧ in1 = none then
                    match nav2.select_input_socket g (some (.idx 1)) with
                    | .error e => .error e
                    | .ok nav2 => .ok (nav2, in0)
                  else .ok (alpha_nav, none)
            else .ok (alpha_nav, none)
        else .ok (alpha_nav, none)
    else .ok (alpha_nav, none)

/-- `get_multiply_factors`: when the cursor's producer is the canonical
multiply idiom (for colors additionally `Fac` pinned to 1), returns the
two cursors selected on the operand sockets; otherwise `none`.  Reading
`nav.in_socket.type` with no selected input raises AttributeError in the
source, which can only be reached if the peek moved without an input
socket (impossible, but kept faithful). -/
def get_multiply_factors (g : Graph) (fuel : Nat) (nav : NodeNav) :
    Except PyErr (Option (NodeNav × NodeNav)) :=
  match nav.peek_back g fuel none with
  | .error e => .error e
  | .ok prev =>
    if prev.moved then
      match nav.in_socket with
      | none => .error .attributeError
      | some is =>
        match (g.inSock is).ty with
        | .RGBA =>
          if (g.node prev.node).ntype = "MIX" ∧ (g.node prev.node).data_type = "RGBA"
              ∧ (g.node prev.node).blend_type = "MULTIPLY" then
            match prev.get_constant g fuel (some (.name "Fac")) with
            | .error e => .error e
            | .ok (prev1, fc) =>
              if pyEqNumOpt fc 1 then
                match prev1.select_input_socket g (some (.name "#A_Color")) with
                | .error e => .error e
                | .ok fac1 =>
                  match fac1.select_input_socket g (some (.name "#B_Color")) with
                  | .error e => .error e
                  | .ok fac2 => .ok (some (fac1, fac2))
              else .ok none
          else .ok none
        | .VALUE =>
          if (g.node prev.node).ntype = "MATH" ∧ (g.node prev.node).operation = "MULTIPLY" then
            match prev.select_input_socket g (some (.idx 0)) with
            | .error e => .error e
            | .ok fac1 =>
              match fac1.select_input_socket g (some (.idx 1)) with
              | .error e => .error e
              | .ok fac2 => .ok (some (fac1, fac2))
          else .ok none
        | _ => .ok none
    else .ok none

/-- `detect_multiply_by_constant`: peel a constant factor off a multiply,
advancing the cursor to the other operand; `none` (cursor unchanged) when
the producer is not a multiply or neither operand is constant. -/
def detect_multiply_by_constant (g : Graph) (fuel : Nat) (nav : NodeNav) :
    Except PyErr (NodeNav × Option Val) :=
  match get_multiply_factors g fuel nav with
  | .error e => .error e
  | .ok none => .ok (nav, none)
  | .ok (some (fac1, fac2)) =>
    match fac1.get_constant g fuel none with
    | .error e => .error e
    | .ok (_, some c) => .ok (fac2, some c)
    | .ok (fac1, none) =>
      match fac2.get_constant g fuel none with
      | .error e => .error e
      | .ok (_, some c) => .ok (fac1, some c)
      | .ok (_, none) => .ok (nav, none)

/-- `get_color_attrib`: a VERTEX_COLOR node yields its `layer_name`
(possibly blank, meaning the active render color attribute); a GEOMETRY
ATTRIBUTE node yields its `attribute_name` only when non-blank. -/
def get_color_attrib (g : Graph) (fuel : Nat) (nav : NodeNav) :
    Except PyErr (Option String) :=
  match nav.peek_back g fuel none with
  | .error e => .error e
  | .ok nav =>
    if !nav.moved then .ok none
    else if (g.node nav.node).ntype = "VERTEX_COLOR" then
      .ok (some (g.node nav.node).layer_name)
    else if (g.node nav.node).ntype = "ATTRIBUTE" then
      if (g.node nav.node).attribute_type = "GEOMETRY" then
        if (g.node nav.node).attribute_name ≠ "" then
          .ok (some (g.node nav.node).attribute_name)
        else .ok none
      else .ok none
    else .ok none

/-- `detect_multiply_by_color_attrib`: peel a color-attribute factor off a
multiply, advancing the cursor to the other operand; `none` (cursor
unchanged) otherwise. -/
def detect_multiply_by_color_attrib (g : Graph) (fuel : Nat) (nav : NodeNav) :
    Except PyErr (NodeNav × Option String) :=
  match get_multiply_factors g fuel nav with
  | .error e => .error e
  | .ok none => .ok (nav, none)
  | .ok (some (fac1, fac2)) =>
    match get_color_attrib g fuel fac1 with
    | .error e => .error e
    | .ok (some attr) => .ok (fac2, some attr)
    | .ok none =>
      match get_color_attrib g fuel fac2 with
      | .error e => .error e
      | .ok (some attr) => .ok (fac1, some attr)
      | .ok none => .ok (nav, none)

/-- One iteration of the two-pass peeling loop of `gather_alpha_info`.
The returned Bool is `true` for `break` (stop iterating) and `false` for
`continue`.  Note the two attribute stores target the misspelled key
`alphaColorAttr`, not the initialized `alphaColorAttrib`. -/
def alpha_attrib_block (g : Graph) (fuel : Nat) (info : AlphaInfo) (nav : NodeNav) :
    Except PyErr (AlphaInfo × NodeNav × Bool) :=
  if info.alphaColorAttrib = none then
    match get_color_attrib g fuel nav with
    | .error e => .error e
    | .ok (some attr) => .ok ({ info with alphaColorAttr := some attr }, nav, true)
    | .ok none =>
      match detect_multiply_by_color_attrib g fuel nav with
      | .error e => .error e
      | .ok (nav, some attr) => .ok ({ info with alphaColorAttr := some attr }, nav, false)
      | .ok (nav, none) => .ok (info, nav, true)
  else .ok (info, nav, true)

/-- The factor half of a loop iteration, falling through into the
attribute half when no factor is found (mirrors the source's in-loop
control flow: `break` after a bare constant, `continue` after a peeled
multiplier). -/
def alpha_loop_body (g : Graph) (fuel : Nat) (info : AlphaInfo) (nav : NodeNav) :
    Except PyErr (AlphaInfo × NodeNav × Bool) :=
  if info.alphaFactor = none then
    match nav.get_constant g fuel none with
    | .error e => .error e
    | .ok (nav, some a) => .ok ({ info with alphaFactor := some a }, nav, true)
    | .ok (nav, none) =>
      match detect_multiply_by_constant g fuel nav with
      | .error e => .error e
      | .ok (nav, some a) => .ok ({ info with alphaFactor := some a }, nav, false)
      | .ok (nav, none) => alpha_attrib_block g fuel info nav
  else alpha_attrib_block g fuel info nav

/-- `gather_alpha_info`: alpha mode / cutoff / factor / color attribute
from the Alpha input.  Constant 1 is OPAQUE; a detected clip idiom is
MASK with its cutoff; then the peeling loop runs at most twice; a factor
of exactly 0 without a detected clip is treated as MASK with cutoff 0.5;
otherwise, absent a clip, the mode is BLEND. -/
def gather_alpha_info (g : Graph) (fuel : Nat) : Option NodeNav → Except PyErr AlphaInfo
  | none => .ok {}
  | some alpha_nav =>
    match alpha_nav.get_constant g fuel none with
    | .error e => .error e
    | .ok (alpha_nav, c) =>
      if pyEqNumOpt c 1 then .ok { alphaMode := some "OPAQUE" }
      else
        match detect_alpha_clip g fuel alpha_nav with
        | .error e => .error e
        | .ok (alpha_nav, cutoff) =>
          let info0 : AlphaInfo :=
            match cutoff with
            | some ct => { alphaMode := some "MASK", alphaCutoff := some ct }
            | none => {}
          let finalize : AlphaInfo → AlphaInfo := fun info =>
            if info.alphaMode = none then
              if pyEqNumOpt info.alphaFactor 0 then
                { info with alphaMode := some "MASK", alphaCutoff := some (.num (Q.mk 1 2)) }
              else { info with alphaMode := some "BLEND" }
            else info
          match alpha_loop_body g fuel info0 alpha_nav with
          | .error e => .error e
          | .ok (info1, nav1, stop) =>
            if stop then .ok (finalize info1)
            else
              match alpha_loop_body g fuel info1 nav1 with
              | .error e => .error e
              | .ok (info2, _, _) => .ok (finalize info2)

/-! ## NodeSocket, previous_socket and the filtered graph search -/

/-- A reference to a socket: owning node, direction, index within the
node's input or output list. -/
structure SockPtr where
  node : NodeId
  isOut : Bool
  idx : Nat
deriving DecidableEq, Repr

/-- `socket.links` for a socket reference: incoming links for an input
socket, outgoing links for an output socket. -/
def Graph.ptrLinks (g : Graph) (p : SockPtr) : List Link :=
  if p.isOut then g.outLinks (p.node, p.idx) else g.inLinks (p.node, p.idx)

/-- `socket.is_linked` for a socket reference. -/
def Graph.ptrIsLinked (g : Graph) (p : SockPtr) : Bool :=
  !(g.ptrLinks p).isEmpty

/-- Class `NodeSocket`: a socket together with the group path (outermost
group first) that leads to it.  `NodeSocket(None, None)` is modelled with
`socket := none`. -/
structure NodeSocket where
  socket : Option SockPtr := none
  group_path : List NodeId := []
deriving DecidableEq, Repr

/-- Class `ShNode`: a node together with its group path. -/
structure ShNode where
  node : Option NodeId := none
  group_path : List NodeId := []
deriving DecidableEq, Repr

/-- `previous_socket`: follow the single incoming link of a socket,
transparently crossing group boundaries and reroutes; the group-path list
is extended on entering a group and shortened on leaving one.  A `[...]
[0]` lookup that finds nothing and `group_path[-1]` on an empty list
raise IndexError; `None.is_linked` raises AttributeError. -/
def previous_socket (g : Graph) : Nat → NodeSocket → Except PyErr NodeSocket
  | 0, _ => .error .outOfFuel
  | fuel + 1, ns =>
    match ns.socket with
    | none => .error .attributeError
    | some soc =>
      match g.ptrLinks soc with
      | [] => .ok { socket := none, group_path := [] }
      | link :: _ =>
        let fs : NodeId × Nat := (link.from_node, link.from_socket)
        let fnode := g.node fs.1
        if fnode.ntype = "GROUP" then
          match fnode.node_tree with
          | none => .error .attributeError
          | some tree =>
            match tree.find? (fun nid => (g.node nid).ntype = "GROUP_OUTPUT") with
            | none => .error .indexError
            | some gout =>
              match (g.node gout).inputs.findIdx? (fun s => s.name = (g.outSock fs).name) with
              | none => .error .indexError
              | some i =>
                  previous_socket g fuel
                    { socket := some ⟨gout, false, i⟩, group_path := ns.group_path ++ [fs.1] }
        else if fnode.ntype = "GROUP_INPUT" then
          match ns.group_path.getLast? with
          | none => .error .indexError
          | some gn =>
            match (g.node gn).inputs.findIdx? (fun s => s.name = (g.outSock fs).name) with
            | none => .error .indexError
            | some i =>
                previous_socket g fuel
                  { socket := some ⟨gn, false, i⟩, group_path := ns.group_path.dropLast }
        else if fnode.ntype = "REROUTE" then
          if 0 < fnode.inputs.length then
            previous_socket g fuel
              { socket := some ⟨fs.1, false, 0⟩, group_path := ns.group_path }
          else .error .indexError
        else .ok { socket := some ⟨fs.1, true, fs.2⟩, group_path := ns.group_path }

/-- `previous_node`. -/
def previous_node (g : Graph) (fuel : Nat) (socket : NodeSocket) : Except PyErr ShNode :=
  match previous_socket g fuel socket with
  | .error e => .error e
  | .ok ps =>
    match ps.socket with
    | some p => .ok { node := some p.node, group_path := ps.group_path }
    | none => .ok { node := none, group_path := [] }

/-- `NodeSocket.to_node_nav`: build a cursor on the socket (asserting the
socket exists).  The group path carries no socket information, so every
stack frame's socket is `None`; the Python stack lists outermost first
and pops from the end, our stack lists innermost first. -/
def NodeSocket.to_node_nav (ns : NodeSocket) : Except PyErr NodeNav :=
  match ns.socket with
  | none => .error .assertionError
  | some p =>
      .ok { node := p.node,
            out_socket := if p.isOut then some (p.node, p.idx) else none,
            in_socket := if p.isOut then none else some (p.node, p.idx),
            stack := (ns.group_path.reverse).map (fun n => (n, none)),
            moved := false }

/-- `get_const_from_socket` (old API): `socket.to_node_nav().get_constant()`;
the `kind` argument is ignored by the implementation. -/
def get_const_from_socket (g : Graph) (fuel : Nat) (socket : NodeSocket) :
    Except PyErr (Option Val) :=
  match socket.to_node_nav with
  | .error e => .error e
  | .ok nav =>
    match nav.get_constant g fuel none with
    | .error e => .error e
    | .ok (_, v) => .ok v

/-- One entry of the result list of `from_socket`. -/
structure SearchResult where
  shader_node : NodeId
  path : List Link
  group_path : List NodeId
deriving DecidableEq, Repr

/-- Work items of the depth-first search of `from_socket`: search the
links arriving at a socket, loop over a link list, or loop over a node's
input sockets. -/
inductive SearchJob where
  | socket (sock : SockPtr) (search_path : List Link) (group_path : List NodeId)
  | links (ls : List Link) (search_path : List Link) (group_path : List NodeId)
      (results : List SearchResult)
  | inputs (link : Link) (ps : List SockPtr) (search_path : List Link)
      (group_path : List NodeId) (results : List SearchResult)

/-- `__search_from_socket` of `from_socket`: depth-first over the links
arriving at a socket, crossing group boundaries, collecting the nodes
satisfying `pred`.  The source mutates its `search_path` and `group_path`
lists while looping over the links; the loops thread those lists
explicitly to reproduce that, and return the possibly extended search
path alongside the results.  The three mutually recursive loops of the
source are fused into one fuel-indexed step function so that the
recursion is structural (each recursive call burns one unit of fuel). -/
def search_step (g : Graph) (pred : Node → Bool) :
    Nat → SearchJob → Except PyErr (List SearchResult × List Link)
  | 0, _ => .error .outOfFuel
  | fuel + 1, job =>
    match job with
    | .socket sock search_path group_path =>
        search_step g pred fuel (.links (g.ptrLinks sock) search_path group_path [])
    | .inputs _ [] search_path _ results => .ok (results, search_path)
    | .inputs link (p :: ps) search_path group_path results =>
      match search_step g pred fuel (.socket p (search_path ++ [link]) group_path) with
      | .error e => .error e
      | .ok (lr, _) =>
        if lr.isEmpty then
          search_step g pred fuel (.inputs link ps search_path group_path results)
        else
          search_step g pred fuel
            (.inputs link ps (search_path ++ [link]) group_path (results ++ lr))
    | .links [] search_path _ results => .ok (results, search_path)
    | .links (link :: rest) search_path group_path results =>
      let ln := g.node link.from_node
      if ln.ntype = "GROUP" then
        match ln.node_tree with
        | none => .error .attributeError
        | some tree =>
          match tree.find? (fun nid => (g.node nid).ntype = "GROUP_OUTPUT") with
          | none => .error .indexError
          | some gout =>
            match (g.node gout).inputs.findIdx?
                (fun s => s.name = (g.outSock (link.from_node, link.from_socket)).name) with
            | none => .error .indexError
            | some i =>
              let group_path := group_path ++ [link.from_node]
              match search_step g pred fuel
                  (.socket ⟨gout, false, i⟩ (search_path ++ [link]) group_path) with
              | .error e => .error e
              | .ok (lr, _) =>
                if lr.isEmpty then
                  search_step g pred fuel (.links rest search_path group_path results)
                else
                  search_step g pred fuel
                    (.links rest (search_path ++ [link]) group_path (results ++ lr))
      else if ln.ntype = "GROUP_INPUT" then
        match group_path.getLast? with
        | none => .error .indexError
        | some gn =>
          match (g.node gn).inputs.findIdx?
              (fun s => s.name = (g.outSock (link.from_node, link.from_socket)).name) with
          | none => .error .indexError
          | some i =>
            match search_step g pred fuel
                (.socket ⟨gn, false, i⟩ (search_path ++ [link]) group_path.dropLast) with
            | .error e => .error e
            | .ok (lr, _) =>
              if lr.isEmpty then
                search_step g pred fuel (.links rest search_path group_path results)
              else
                search_step g pred fuel
                  (.links rest (search_path ++ [link]) group_path (results ++ lr))
      else
        let results :=
          if pred ln then results ++ [⟨link.from_node, search_path ++ [link], group_path⟩]
          else results
        match search_step g pred fuel
            (.inputs link ((List.range ln.inputs.length).map
              (fun i => (⟨link.from_node, false, i⟩ : SockPtr))) search_path group_path results) with
        | .error e => .error e
        | .ok (results, search_path) =>
            search_step g pred fuel (.links rest search_path group_path results)

/-- Entry point of the inner search. -/
def search_from_socket (g : Graph) (pred : Node → Bool) (fuel : Nat) (sock : SockPtr)
    (search_path : List Link) (group_path : List NodeId) : Except PyErr (List SearchResult) :=
  match search_step g pred fuel (.socket sock search_path group_path) with
  | .error e => .error e
  | .ok (results, _) => .ok results

/-- `from_socket`: returns the start socket's own node when it matches,
else searches backward from the socket. -/
def from_socket (g : Graph) (pred : Node → Bool) (fuel : Nat) (start : NodeSocket) :
    Except PyErr (List SearchResult) :=
  match start.socket with
  | none => .ok []
  | some sock =>
    if pred (g.node sock.node) then .ok [⟨sock.node, [], start.group_path⟩]
    else search_from_socket g pred fuel sock [] start.group_path

/-- `get_texture_node_from_socket`: first TEX_IMAGE node found from the
socket, provided it has an image assigned (`FilterByType(ShaderNodeTexImage)`
is an isinstance check, modelled by the node type string). -/
def get_texture_node_from_socket (g : Graph) (fuel : Nat) (socket : NodeSocket) :
    Except PyErr (Option SearchResult) :=
  match from_socket g (fun n => n.ntype = "TEX_IMAGE") fuel socket with
  | .error e => .error e
  | .ok [] => .ok none
  | .ok (r :: _) =>
      if (g.node r.shader_node).image = none then .ok none else .ok (some r)

/-- `has_image_node_from_socket`. -/
def has_image_node_from_socket (g : Graph) (fuel : Nat) (socket : NodeSocket) :
    Except PyErr Bool :=
  match get_texture_node_from_socket g fuel socket with
  | .error e => .error e
  | .ok r => .ok (r ≠ none)

/-! ## Anisotropy detector -/

/-- The per-feature bundle returned by `detect_anisotropy_nodes` on
success. -/
structure AnisotropyData where
  anisotropyStrength : Option Val
  anisotropyRotation : Option Val
  tangent : String
  tex_socket : NodeSocket
deriving DecidableEq, Repr

/-- Final step of `detect_anisotropy_nodes` (source lines 1005-1014):
the texture behind the multiply-add's first input must have an image;
then the bundle is assembled from the multiply node's second input
(strength), the add node's second input (rotation offset), the tangent
node's uv map, and the texture socket. -/
def detect_anisotropy_bundle (g : Graph) (fuel : Nat) (gp : List NodeId)
    (tn mul rotn mad : NodeId) : Except PyErr (Bool × Option AnisotropyData) :=
  match has_image_node_from_socket g fuel { socket := some ⟨mad, false, 0⟩, group_path := gp } with
  | .error e => .error e
  | .ok false => .ok (false, none)
  | .ok true =>
    if 1 < (g.node mul).inputs.length then
      match get_const_from_socket g fuel { socket := some ⟨mul, false, 1⟩, group_path := gp } with
      | .error e => .error e
      | .ok strength =>
        if 1 < (g.node rotn).inputs.length then
          match get_const_from_socket g fuel { socket := some ⟨rotn, false, 1⟩, group_path := gp } with
          | .error e => .error e
          | .ok rotation =>
            .ok (true, some
              { anisotropyStrength := strength, anisotropyRotation := rotation,
                tangent := (g.node tn).uv_map,
                tex_socket := { socket := some ⟨mad, false, 0⟩, group_path := gp } })
        else .error .indexError
    else .error .indexError

/-- Source lines 986-1003: the Separate XYZ input must come from a
VECT_MATH MULTIPLY_ADD node with constants [2,2,1] and [-1,-1,0], whose
first input is fed by an image texture node. -/
def detect_anisotropy_mad (g : Graph) (fuel : Nat) (gp : List NodeId)
    (tn mul rotn sep : NodeId) : Except PyErr (Bool × Option AnisotropyData) :=
  if 0 < (g.node sep).inputs.length then
    if g.inIsLinked (sep, 0) then
      match g.inLinks (sep, 0) with
      | [] => .error .indexError
      | pl :: _ =>
        if (g.node pl.from_node).ntype = "VECT_MATH" then
          if (g.node pl.from_node).operation = "MULTIPLY_ADD" then
            if 1 < (g.node pl.from_node).inputs.length then
              match (g.inSock (pl.from_node, 1)).default_value with
              | .num _ => .error .typeError
              | .arr v1 =>
                if listQeq v1 [2, 2, 1] then
                  if 2 < (g.node pl.from_node).inputs.length then
                    match (g.inSock (pl.from_node, 2)).default_value with
                    | .num _ => .error .typeError
                    | .arr v2 =>
                      if listQeq v2 [Q.mk (-1) 1, Q.mk (-1) 1, 0] then
                        if g.inIsLinked (pl.from_node, 0) then
                          match g.inLinks (pl.from_node, 0) with
                          | [] => .error .indexError
                          | xl :: _ =>
                            if (g.node xl.from_node).ntype = "TEX_IMAGE" then
                              detect_anisotropy_bundle g fuel gp tn mul rotn pl.from_node
                            else .ok (false, none)
                        else .ok (false, none)
                      else .ok (false, none)
                  else .error .indexError
                else .ok (false, none)
            else .error .indexError
          else .ok (false, none)
        else .ok (false, none)
    else .ok (false, none)
  else .error .indexError

/-- Source lines 978-984: the divide node's output must feed the
Principled BSDF's "Anisotropic Rotation" input; then the multiply-add
stage follows. -/
def detect_anisotropy_principled (g : Graph) (fuel : Nat) (gp : List NodeId)
    (tn mul rotn sep conv : NodeId) : Except PyErr (Bool × Option AnisotropyData) :=
  if 0 < (g.node conv).outputs.length then
    if g.outIsLinked (conv, 0) then
      match g.outLinks (conv, 0) with
      | [] => .error .indexError
      | cl :: _ =>
        if (g.inSock (cl.to_node, cl.to_socket)).name = "Anisotropic Rotation" then
          if (g.node cl.to_node).ntype = "BSDF_PRINCIPLED" then
            detect_anisotropy_mad g fuel gp tn mul rotn sep
          else .ok (false, none)
        else .ok (false, none)
    else .ok (false, none)
  else .error .indexError

/-- Source lines 959-977: the arctangent output feeds a Math ADD node,
whose output feeds a Math DIVIDE node with 2*pi (within 1e-4) as second
input. -/
def detect_anisotropy_rotchain (g : Graph) (fuel : Nat) (gp : List NodeId)
    (tn mul sep atan : NodeId) : Except PyErr (Bool × Option AnisotropyData) :=
  if 0 < (g.node atan).outputs.length then
    if g.outIsLinked (atan, 0) then
      match g.outLinks (atan, 0) with
      | [] => .error .indexError
      | tl :: _ =>
        if (g.node tl.to_node).ntype = "MATH" then
          if (g.node tl.to_node).operation = "ADD" then
            if 0 < (g.node tl.to_node).outputs.length then
              if g.outIsLinked (tl.to_node, 0) then
                match g.outLinks (tl.to_node, 0) with
                | [] => .error .indexError
                | rl :: _ =>
                  if (g.node rl.to_node).ntype = "MATH" then
                    if (g.node rl.to_node).operation = "DIVIDE" then
                      if 1 < (g.node rl.to_node).inputs.length then
                        match (g.inSock (rl.to_node, 1)).default_value with
                        | .arr _ => .error .typeError
                        | .num pi2 =>
                          if (Q.mk 1 10000).qlt ((pi2.sub (Q.mk 6283185 1000000)).qabs) then
                            .ok (false, none)
                          else
                            detect_anisotropy_principled g fuel gp tn mul tl.to_node sep rl.to_node
                      else .error .indexError
                    else .ok (false, none)
                  else .ok (false, none)
              else .ok (false, none)
            else .error .indexError
          else .ok (false, none)
        else .ok (false, none)
    else .ok (false, none)
  else .error .indexError

/-- Source lines 938-957: the multiply's first input must be linked to a
Separate XYZ node on its "Z" output; the Separate XYZ's X output must
feed an ARCTAN2 math node taking Y on its first and X on its second
input (an unchecked `links[0]` on an unlinked arctan input raises
IndexError, as in the source). -/
def detect_anisotropy_sepchain (g : Graph) (fuel : Nat) (gp : List NodeId)
    (tn mul : NodeId) : Except PyErr (Bool × Option AnisotropyData) :=
  if 0 < (g.node mul).inputs.length then
    if g.inIsLinked (mul, 0) then
      match g.inLinks (mul, 0) with
      | [] => .error .indexError
      | ml :: _ =>
        if (g.node ml.from_node).ntype = "SEPXYZ" then
          if (g.outSock (ml.from_node, ml.from_socket)).name = "Z" then
            if 0 < (g.node ml.from_node).outputs.length then
              if g.outIsLinked (ml.from_node, 0) then
                match g.outLinks (ml.from_node, 0) with
                | [] => .error .indexError
                | sl :: _ =>
                  if (g.node sl.to_node).ntype = "MATH" then
                    if (g.node sl.to_node).operation = "ARCTAN2" then
                      match g.inLinks (sl.to_node, 0) with
                      | [] => .error .indexError
                      | a0 :: _ =>
                        if (g.outSock (a0.from_node, a0.from_socket)).name = "Y" then
                          match g.inLinks (sl.to_node, 1) with
                          | [] => .error .indexError
                          | a1 :: _ =>
                            if (g.outSock (a1.from_node, a1.from_socket)).name = "X" then
                              detect_anisotropy_rotchain g fuel gp tn mul ml.from_node sl.to_node
                            else .ok (false, none)
                        else .ok (false, none)
                    else .ok (false, none)
                  else .ok (false, none)
              else .ok (false, none)
            else .error .indexError
          else .ok (false, none)
        else .ok (false, none)
    else .ok (false, none)
  else .error .indexError

/-- `detect_anisotropy_nodes`: strict structural match of the anisotropy
authoring idiom (source lines 897-1014).  Every guard mirrors one check
of the source, in source order, the later stages being split into the
helper functions above; any failed check yields `(False, None)`. -/
def detect_anisotropy_nodes (g : Graph) (fuel : Nat)
    (anisotropy_socket anisotropy_rotation_socket anisotropy_tangent_socket : NodeSocket) :
    Except PyErr (Bool × Option AnisotropyData) :=
  match anisotropy_socket.socket, anisotropy_rotation_socket.socket,
      anisotropy_tangent_socket.socket with
  | none, _, _ => .ok (false, none)
  | _, none, _ => .ok (false, none)
  | _, _, none => .ok (false, none)
  | some aniso_ptr, some rot_ptr, some tan_ptr =>
    match previous_node g fuel anisotropy_tangent_socket with
    | .error e => .error e
    | .ok tangent_node =>
      match tangent_node.node with
      | none => .ok (false, none)
      | some tn =>
        if (g.node tn).ntype = "TANGENT" then
          if (g.node tn).direction_type = "UV_MAP" then
            if g.ptrIsLinked aniso_ptr then
              if g.ptrIsLinked rot_ptr then
                if g.ptrIsLinked tan_ptr then
                  match g.ptrLinks aniso_ptr with
                  | [] => .error .indexError
                  | al :: _ =>
                    if (g.node al.from_node).ntype = "MATH" then
                      if (g.node al.from_node).operation = "MULTIPLY" then
                        detect_anisotropy_sepchain g fuel
                          anisotropy_socket.group_path tn al.from_node
                      else .ok (false, none)
                    else .ok (false, none)
                else .ok (false, none)
              else .ok (false, none)
            else .ok (false, none)
          else .ok (false, none)
        else .ok (false, none)

/-! ## UV texture transform extraction and inversion -/

/-- A full offset/rotation/scale record, the shape of the
`mapping_transform` dict once all three keys are set (which is the case
on every path that reaches the final conversion). -/
structure TT0 where
  offset : Q × Q
  rotation : Q
  scale : Q × Q
deriving DecidableEq, Repr

/-- The final `texture_transform` dict: each field may have been deleted
when it equals the format default. -/
structure TexTransform where
  offset : Option (Q × Q) := none
  rotation : Option Q := none
  scale : Option (Q × Q) := none
deriving DecidableEq, Repr

/-- Input socket of a node by name (`node.inputs["..."]`; KeyError when
absent). -/
def Node.inputByName (n : Node) (s : String) : Except PyErr Socket :=
  match n.inputs.find? (fun sock => sock.name = s) with
  | some sock => .ok sock
  | none => .error .keyError

/-- `default_value[i]` for a socket value: IndexError past the end,
TypeError on a bare float. -/
def Val.index (v : Val) (i : Nat) : Except PyErr Q :=
  match v with
  | .num _ => .error .typeError
  | .arr xs =>
    match xs.get? i with
    | some x => .ok x
    | none => .error .indexError

/-- The inner `inverted` closure of
`get_texture_transform_from_mapping_node`: algebraic inverse of a TRS in
the plane, declined (`none`) when the rotation is non-negligible while
the scale axes differ, or when either scale is near zero.
`Matrix.Rotation(-rotation, 3, "Z") @ Vector((-ox, -oy, 1))` is expanded
with the sine/cosine functions passed as parameters `sinf`/`cosf` (the
embedding treats trigonometry as an oracle; no claim depends on concrete
trigonometric values). -/
def invertedTRS (sinf cosf : Q → Q) (mt : TT0) : Option TT0 :=
  if (Q.mk 1 100000).qlt mt.rotation.qabs && (Q.mk 1 100000).qlt ((mt.scale.1.sub mt.scale.2).qabs) then none
  else if mt.scale.1.qabs.qlt (Q.mk 1 100000) || mt.scale.2.qabs.qlt (Q.mk 1 100000) then none
  else
    let c := cosf mt.rotation.neg
    let s := sinf mt.rotation.neg
    let nx := (c.mul mt.offset.1.neg).sub (s.mul mt.offset.2.neg)
    let ny := (s.mul mt.offset.1.neg).add (c.mul mt.offset.2.neg)
    some { offset := (nx.div mt.scale.1, ny.div mt.scale.2),
           rotation := mt.rotation.neg,
           scale := ((1 : Q).div mt.scale.1, (1 : Q).div mt.scale.2) }

/-- Deletion of default-valued fields from the converted transform, and
the final emptiness check: offset `[0,0]`, scale `[1,1]` and rotation `0`
are dropped; an all-default transform becomes `none`. -/
def stripDefaults (t : TT0) : Option TexTransform :=
  let res : TexTransform :=
    { offset := if t.offset.1.qeq 0 && t.offset.2.qeq 0 then none else some t.offset,
      scale := if t.scale.1.qeq 1 && t.scale.2.qeq 1 then none else some t.scale,
      rotation := if t.rotation.qeq 0 then none else some t.rotation }
  if res.offset = none ∧ res.rotation = none ∧ res.scale = none then none else some res

/-- `get_texture_transform_from_mapping_node`.  `conv` stands for
`texture_transform_blender_to_gltf` (module
`gltf2_blender_conversion`, an external serializer-contract collaborator
not part of the analysed sources), passed as an opaque parameter.
Unsupported vector types, non-zero X/Y rotation and a TEXTURE-mode
transform that is not invertible as a TRS yield `none` with an advisory
diagnostic (diagnostics do not alter data flow and are not modelled). -/
def get_texture_transform_from_mapping_node (sinf cosf : Q → Q) (conv : TT0 → TT0)
    (m : Node) : Except PyErr (Option TexTransform) :=
  if ¬ (m.vector_type = "TEXTURE" ∨ m.vector_type = "POINT" ∨ m.vector_type = "VECTOR") then
    .ok none
  else
    match m.inputByName "Rotation" with
    | .error e => .error e
    | .ok rotSock =>
      match rotSock.default_value.index 0 with
      | .error e => .error e
      | .ok rotation_0 =>
        match rotSock.default_value.index 1 with
        | .error e => .error e
        | .ok rotation_1 =>
          if !(rotation_0.qeq 0) || !(rotation_1.qeq 0) then .ok none
          else
            match m.inputByName "Location" with
            | .error e => .error e
            | .ok locSock =>
              match locSock.default_value.index 0 with
              | .error e => .error e
              | .ok loc0 =>
                match locSock.default_value.index 1 with
                | .error e => .error e
                | .ok loc1 =>
                  match rotSock.default_value.index 2 with
                  | .error e => .error e
                  | .ok rot2 =>
                    match m.inputByName "Scale" with
                    | .error e => .error e
                    | .ok scSock =>
                      match scSock.default_value.index 0 with
                      | .error e => .error e
                      | .ok sc0 =>
                        match scSock.default_value.index 1 with
                        | .error e => .error e
                        | .ok sc1 =>
                          if m.vector_type = "TEXTURE" then
                            match invertedTRS sinf cosf
                                { offset := (loc0, loc1), rotation := rot2, scale := (sc0, sc1) } with
                            | none => .ok none
                            | some inv => .ok (stripDefaults (conv inv))
                          else if m.vector_type = "VECTOR" then
                            .ok (stripDefaults (conv
                              { offset := (0, 0), rotation := rot2, scale := (sc0, sc1) }))
                          else
                            .ok (stripDefaults (conv
                              { offset := (loc0, loc1), rotation := rot2, scale := (sc0, sc1) }))

/-! ## Specular extension assembly -/

/-- The socket view `export_specular` needs of a socket returned by the
resolver: the isinstance check, the linked state and the default value.
Modelled from the spec: the resolver `get_socket` and its socket objects
live in the external module `gltf2_blender_get`, which is not among the
analysed sources; per the spec it locates the named input socket of the
canonical shading node, so the two resolved sockets are supplied directly
as inputs. -/
structure SpecSocket where
  is_bpy_node_socket : Bool := true
  is_linked : Bool := false
  default_value : Val := .num 0
deriving DecidableEq, Repr

/-- Inputs of `export_specular`.  Modelled from the spec: the helpers
`get_factor_from_socket`, `has_image_node_from_socket` and
`gather_texture_info` of the external modules `gltf2_blender_get` /
`gltf2_blender_gather_texture_info` are supplied as oracle fields
(the spec describes them as the factor extractor and texture lookup; they
are only consulted for linked sockets). -/
structure SpecEnv where
  specular_socket : Option SpecSocket := none
  speculartint_socket : Option SpecSocket := none
  specular_factor : Option Q := none
  tint_factor : Option (List Q) := none
  specular_has_image : Bool := false
  tint_has_image : Bool := false
deriving DecidableEq, Repr

/-- The `specular_extension` dict.  `specularColorFactor` is assigned on
every tint path, possibly with the value `None` (kept as `some none`);
textures are recorded as opaque markers. -/
structure SpecExtension where
  specularFactor : Option Q := none
  specularColorFactor : Option (Option (List Q)) := none
  specularTexture : Option Unit := none
  specularColorTexture : Option Unit := none
deriving DecidableEq, Repr

/-- `export_specular`.  Python tuples and sliced socket arrays are both
modelled as rational lists; multiplying a list by a float raises
TypeError, indexing past its end raises IndexError, matching the Python
failure modes.  Returns the extension (or `none` when nothing deviates
from the schema defaults) and the list of uv-map info keys. -/
def export_specular (env : SpecEnv) : Except PyErr (Option SpecExtension × List String) :=
  match env.specular_socket, env.speculartint_socket with
  | none, _ => .ok (none, [])
  | _, none => .ok (none, [])
  | some s, some t =>
    let specular_non_linked := s.is_bpy_node_socket ∧ ¬s.is_linked
    let tint_non_linked := t.is_bpy_node_socket ∧ ¬t.is_linked
    -- Specular strength half
    let strengthPart : Except PyErr (SpecExtension × Bool × List String × Option Q) :=
      if specular_non_linked then
        match s.default_value with
        | .arr _ => .error .typeError
        | .num fac0 =>
          let fac := fac0.mul 2
          if fac.qlt 1 then .ok ({ specularFactor := some fac }, true, [], some fac)
          else if (1 : Q).qlt fac then .ok ({}, true, [], some fac)
          else .ok ({}, false, [], some fac)
      else
        let fac := env.specular_factor
        let (ext, needed, fac) :=
          match fac with
          | some f =>
            if !(f.qeq 1) then
              let f2 := f.mul 2
              if f2.qlt 1 then (({ specularFactor := some f2 } : SpecExtension), true, some f2)
              else if (1 : Q).qlt f2 then (({} : SpecExtension), true, some f2)
              else (({} : SpecExtension), false, some f2)
            else (({} : SpecExtension), false, some f)
          | none => (({} : SpecExtension), false, none)
        if env.specular_has_image then
          .ok ({ ext with specularTexture := some () }, true, ["specularTexture"], fac)
        else .ok (ext, needed, [], fac)
    match strengthPart with
    | .error e => .error e
    | .ok (ext, needed, uvs, fac) =>
      -- Specular tint half
      if tint_non_linked then
        match t.default_value with
        | .num _ => .error .typeError
        | .arr xs =>
          let color := xs.take 3
          let scaled : Except PyErr (List Q) :=
            match fac with
            | some f =>
              if (1 : Q).qlt f then
                match color with
                | c0 :: c1 :: c2 :: _ => .ok [c0.mul f, c1.mul f, c2.mul f]
                | _ => .error .indexError
              else .ok color
            | none => .ok color
          match scaled with
          | .error e => .error e
          | .ok color =>
            let ext := { ext with specularColorFactor := some (if listQeq color [1, 1, 1] then none else some color) }
            let needed := needed || !(listQeq color [1, 1, 1])
            if needed then .ok (some ext, uvs) else .ok (none, [])
      else
        let fac_color0 := env.tint_factor
        let scaled : Except PyErr (Option (List Q)) :=
          match fac_color0, fac with
          | some cs, some f =>
            if (1 : Q).qlt f then
              match cs with
              | c0 :: c1 :: c2 :: _ => .ok (some [c0.mul f, c1.mul f, c2.mul f])
              | _ => .error .indexError
            else .ok (some cs)
          | none, some f => if (1 : Q).qlt f then .ok (some [f, f, f]) else .ok none
          | cs, none => .ok cs
        match scaled with
        | .error e => .error e
        | .ok fac_color =>
          let tintWhite := match fac_color with
            | some cs => listQeq cs [1, 1, 1]
            | none => false
          let ext := { ext with specularColorFactor := some (if tintWhite then none else fac_color) }
          let needed := needed || !tintWhite
          let (ext, needed, uvs) :=
            if env.tint_has_image then
              ({ ext with specularColorTexture := some () }, true, uvs ++ ["specularColorTexture"])
            else (ext, needed, uvs)
          if needed then .ok (some ext, uvs) else .ok (none, [])

/-! ## Concrete graphs used by the claims -/

/-- Scalar socket helper for test graphs. -/
def vSock (nm : String) (x : Q) : Socket :=
  { name := nm, ty := .VALUE, default_value := .num x }

/-- Color socket helper for test graphs. -/
def cSock (nm : String) (xs : List Q) : Socket :=
  { name := nm, ty := .RGBA, default_value := .arr xs }

/-- An image texture node with Color (RGBA) and Alpha (VALUE) outputs. -/
def texNode : Node :=
  { ntype := "TEX_IMAGE", image := some "img",
    outputs := [cSock "Color" [0, 0, 0, 1], vSock "Alpha" 1] }

/-- Opaque material: Principled BSDF with an unlinked Alpha of 1. -/
def gAlphaOpaque : Graph :=
  { nodes := [{ ntype := "BSDF_PRINCIPLED", inputs := [vSock "Alpha" 1] }] }

/-- A cursor on the Alpha input of node 0. -/
def alphaNav : NodeNav := { node := 0, in_socket := some (0, 0) }

/-- Mask material: Alpha fed by a Math:Round of a texture alpha. -/
def gAlphaRound : Graph :=
  { nodes :=
      [{ ntype := "BSDF_PRINCIPLED", inputs := [vSock "Alpha" 1] },
       { ntype := "MATH", operation := "ROUND",
         inputs := [vSock "Value" (Q.mk 1 2), vSock "Value_001" (Q.mk 1 2)],
         outputs := [vSock "Value" 0] },
       texNode],
    links := [⟨1, 0, 0, 0⟩, ⟨2, 1, 1, 0⟩] }

/-- Mask material with explicit cutoff: Alpha fed by `1 - (x < 0.3)`. -/
def gAlphaLess : Graph :=
  { nodes :=
      [{ ntype := "BSDF_PRINCIPLED", inputs := [vSock "Alpha" 1] },
       { ntype := "MATH", operation := "SUBTRACT",
         inputs := [vSock "Value" 1, vSock "Value_001" (Q.mk 1 2)],
         outputs := [vSock "Value" 0] },
       { ntype := "MATH", operation := "LESS_THAN",
         inputs := [vSock "Value" 0, vSock "Value_001" (Q.mk 3 10)],
         outputs := [vSock "Value" 0] },
       texNode],
    links := [⟨1, 0, 0, 0⟩, ⟨2, 0, 1, 1⟩, ⟨3, 1, 2, 0⟩] }

/-- Blend material: unlinked constant Alpha of 0.25. -/
def gAlphaBlend : Graph :=
  { nodes := [{ ntype := "BSDF_PRINCIPLED", inputs := [vSock "Alpha" (Q.mk 1 4)] }] }

/-- Alpha = texture alpha multiplied by a vertex-color attribute named
"Col" (through the attribute's Alpha output). -/
def gAlphaVC : Graph :=
  { nodes :=
      [{ ntype := "BSDF_PRINCIPLED", inputs := [vSock "Alpha" 1] },
       { ntype := "MATH", operation := "MULTIPLY",
         inputs := [vSock "Value" (Q.mk 1 2), vSock "Value_001" (Q.mk 1 2)],
         outputs := [vSock "Value" 0] },
       { ntype := "VERTEX_COLOR", layer_name := "Col",
         outputs := [cSock "Color" [1, 1, 1, 1], vSock "Alpha" 1] },
       texNode],
    links := [⟨1, 0, 0, 0⟩, ⟨2, 1, 1, 0⟩, ⟨3, 1, 1, 1⟩] }

/-- A scalar input (Roughness) linked to a bare Value constant node. -/
def gValueConst : Graph :=
  { nodes :=
      [{ ntype := "BSDF_PRINCIPLED", inputs := [vSock "Roughness" (Q.mk 1 2)] },
       { ntype := "VALUE", outputs := [vSock "Value" (Q.mk 7 10)] }],
    links := [⟨1, 0, 0, 0⟩] }

/-- A scalar input fed by `Value-node * texture` through a Math multiply:
operand 0 is a bare Value constant node (2.0), operand 1 a texture. -/
def gMulValueTex : Graph :=
  { nodes :=
      [{ ntype := "BSDF_PRINCIPLED", inputs := [vSock "Roughness" (Q.mk 1 2)] },
       { ntype := "MATH", operation := "MULTIPLY",
         inputs := [vSock "Value" (Q.mk 1 2), vSock "Value_001" (Q.mk 1 2)],
         outputs := [vSock "Value" 0] },
       { ntype := "VALUE", outputs := [vSock "Value" 2] },
       texNode],
    links := [⟨1, 0, 0, 0⟩, ⟨2, 0, 1, 0⟩, ⟨3, 1, 1, 1⟩] }

/-- A color input with an unlinked RGBA default. -/
def gColorDefault : Graph :=
  { nodes := [{ ntype := "BSDF_PRINCIPLED",
                inputs := [cSock "Base Color" [Q.mk 1 2, Q.mk 1 4, Q.mk 1 8, 1]] }] }

/-- The transparent pass-through node of the reroute chains. -/
def rerouteNode : Node :=
  { ntype := "REROUTE", inputs := [vSock "Input" 0], outputs := [vSock "Output" 0] }

/-- The producer at the head of the reroute chains. -/
def chainProducer : Node := texNode

/-- The consumer at the tail of the reroute chains. -/
def chainConsumer : Node :=
  { ntype := "BSDF_PRINCIPLED", inputs := [cSock "Base Color" [1, 1, 1, 1]] }

/-- Producer (node 0), `n` reroute nodes (nodes 1..n), consumer (node
n+1), each linked to the previous one's first output; `n = 0` is the
direct producer-to-consumer link. -/
def rerouteChainGraph (n : Nat) : Graph :=
  { nodes := chainProducer :: (List.replicate n rerouteNode ++ [chainConsumer]),
    links := (List.range (n + 1)).map (fun i => ⟨i, 0, i + 1, 0⟩) }

/-! ## Specular scenario environments -/

/-- Unconnected strength at the default 0.5, unconnected white tint. -/
def specEnvDefault : SpecEnv :=
  { specular_socket := some { is_linked := false, default_value := .num (Q.mk 1 2) },
    speculartint_socket := some { is_linked := false, default_value := .arr [1, 1, 1, 1] } }

/-- Unconnected strength 0.3, unconnected white tint. -/
def specEnvLow : SpecEnv :=
  { specular_socket := some { is_linked := false, default_value := .num (Q.mk 3 10) },
    speculartint_socket := some { is_linked := false, default_value := .arr [1, 1, 1, 1] } }

/-- Unconnected strength 0.8, unconnected white tint. -/
def specEnvHigh : SpecEnv :=
  { specular_socket := some { is_linked := false, default_value := .num (Q.mk 4 5) },
    speculartint_socket := some { is_linked := false, default_value := .arr [1, 1, 1, 1] } }

/-! ## Theorems -/

deriving instance DecidableEq for Except

/-- C4: canonical alpha inputs map to the claimed modes: constant 1 is
OPAQUE; a round node is MASK with cutoff 0.5; `1 - (x < 0.3)` is MASK
with cutoff 0.3; an unrecognized non-zero non-one constant (0.25) is
BLEND with that constant as the alpha factor. -/
theorem gather_alpha_info_canonical_modes :
    gather_alpha_info gAlphaOpaque 99 (some alphaNav) = .ok { alphaMode := some "OPAQUE" } ∧
    gather_alpha_info gAlphaRound 99 (some alphaNav) =
      .ok { alphaMode := some "MASK", alphaCutoff := some (.num (Q.mk 1 2)) } ∧
    gather_alpha_info gAlphaLess 99 (some alphaNav) =
      .ok { alphaMode := some "MASK", alphaCutoff := some (.num (Q.mk 3 10)) } ∧
    gather_alpha_info gAlphaBlend 99 (some alphaNav) =
      .ok { alphaMode := some "BLEND", alphaFactor := some (.num (Q.mk 1 4)) } := by
  refine ⟨by decide, by decide, by decide, by decide⟩

/-- C1: on an alpha chain that multiplies a texture alpha by the
vertex-color attribute "Col", `gather_alpha_info` leaves the initialized
`alphaColorAttrib` key at `None` and stores the peeled attribute name
under the misspelled key `alphaColorAttr` instead — the key that the
consumer `get_vertex_color_info` reads (`alphaColorAttrib`) therefore
never receives the name. -/
theorem gather_alpha_info_attrib_key_mismatch :
    gather_alpha_info gAlphaVC 99 (some alphaNav) =
      .ok { alphaMode := some "BLEND", alphaCutoff := none, alphaFactor := none,
            alphaColorAttrib := none, alphaColorAttr := some "Col" } := by
  decide

/-- C2: a scalar (VALUE) input connected to a bare Value constant node
makes `get_constant` evaluate `nav.node.out_socket.default_value`; node
objects have no `out_socket` attribute, so the call raises
AttributeError instead of returning the node's literal 0.7. -/
theorem get_constant_value_node_raises :
    alphaNav.get_constant gValueConst 99 none = .error .attributeError := by
  decide

/-- C6: with the scalar multiply idiom present (operand 0 a bare Value
constant node holding 2.0, operand 1 a texture), `get_factor` reads the
operands through `get_constant` and the Value-node read raises
AttributeError (the same missing-attribute slip as in `get_constant`),
so no constant is returned. -/
theorem get_factor_value_operand_raises :
    alphaNav.get_factor gMulValueTex 99 none = .error .attributeError := by
  decide

/-- C3: specular export scenarios with unconnected sockets: strength 0.5
(doubled to the schema default 1.0) with white tint emits no extension;
strength 0.3 emits specularFactor 0.6 and no texture; strength 0.8
(doubled 1.6 > 1) emits no specularFactor and scales the tint color by
1.6 instead. -/
theorem export_specular_scenarios :
    export_specular specEnvDefault = .ok (none, []) ∧
    export_specular specEnvLow =
      .ok (some { specularFactor := some (Q.mk 6 10), specularColorFactor := some none,
                  specularTexture := none, specularColorTexture := none }, []) ∧
    export_specular specEnvHigh =
      .ok (some { specularFactor := none,
                  specularColorFactor := some (some [Q.mk 8 5, Q.mk 8 5, Q.mk 8 5]),
                  specularTexture := none, specularColorTexture := none }, []) := by
  refine ⟨by decide, by decide, by decide⟩

/-- Node 0 of every chain graph is the producer. -/
theorem chain_node_zero (n : Nat) : (rerouteChainGraph n).node 0 = chainProducer := rfl

/-- Nodes 1..n of the chain graph are reroutes. -/
theorem chain_node_mid (n k : Nat) (h1 : 1 ≤ k) (h2 : k ≤ n) :
    (rerouteChainGraph n).node k = rerouteNode := by
  obtain ⟨m, rfl⟩ : ∃ m, k = m + 1 := ⟨k - 1, by omega⟩
  have hm : m < (List.replicate n rerouteNode).length := by
    simp only [List.length_replicate]; omega
  unfold rerouteChainGraph Graph.node
  simp only [List.getD_cons_succ]
  rw [List.getD_append _ _ _ _ hm]
  simp [List.getD_eq_getElem?_getD, List.getElem?_replicate, show m < n by omega]

/-- Node n+1 of the chain graph is the consumer. -/
theorem chain_node_last (n : Nat) : (rerouteChainGraph n).node (n + 1) = chainConsumer := by
  unfold rerouteChainGraph Graph.node
  simp only [List.getD_cons_succ]
  rw [List.getD_append_right _ _ _ _ (by simp : (List.replicate n rerouteNode).length ≤ n)]
  simp

/-- Helper: the links arriving at input 0 of node k of the chain. -/
theorem chain_links_filter (m k : Nat) (h1 : 1 ≤ k) :
    ((List.range m).map (fun i => (⟨i, 0, i + 1, 0⟩ : Link))).filter
        (fun l => decide (l.to_node = k ∧ l.to_socket = 0)) =
      if k ≤ m then [⟨k - 1, 0, k, 0⟩] else [] := by
  induction m with
  | zero => simp; omega
  | succ m ih =>
    rw [List.range_succ, List.map_append, List.filter_append, ih]
    by_cases hk : k = m + 1
    · subst hk
      simp [show ¬ (m + 1 ≤ m) by omega]
    · by_cases hk2 : k ≤ m
      · simp [hk2, show k ≤ m + 1 by omega, show ¬ (m + 1 = k) by omega]
      · simp [hk2, show ¬ (k ≤ m + 1) by omega, show ¬ (m + 1 = k) by omega]

/-- The single link into input 0 of node k (1 ≤ k ≤ n+1) of the chain. -/
theorem chain_inLinks (n k : Nat) (h1 : 1 ≤ k) (h2 : k ≤ n + 1) :
    (rerouteChainGraph n).inLinks (k, 0) = [⟨k - 1, 0, k, 0⟩] := by
  unfold rerouteChainGraph Graph.inLinks
  simpa using chain_links_filter (n + 1) k h1 |>.trans (by simp [h2])

/-- Traversal helper: continuing `move_back` from reroute node k of the
chain (1 ≤ k ≤ n) reaches the producer, with the stack untouched. -/
theorem chain_moveback_aux (n : Nat) : ∀ k, 1 ≤ k → k ≤ n → ∀ fuel (st : List (NodeId × Option (NodeId × Nat))) (b : Bool), k - 1 ≤ fuel →
    NodeNav.move_back (rerouteChainGraph n) fuel
      { node := k, in_socket := none, out_socket := some (k, 0), stack := st, moved := b }
      (some (.idx 0))
    = .ok { node := 0, in_socket := none, out_socket := some (0, 0), stack := st, moved := true } := by
  intro k
  induction k with
  | zero => omega
  | succ m ih =>
    intro h1 h2 fuel st b h3
    have hnode : (rerouteChainGraph n).node (m + 1) = rerouteNode :=
      chain_node_mid n (m + 1) (by omega) h2
    have hlinks : (rerouteChainGraph n).inLinks (m + 1, 0) = [⟨m, 0, m + 1, 0⟩] :=
      chain_inLinks n (m + 1) (by omega) (by omega)
    have hlen : 0 < ((rerouteChainGraph n).node (m + 1)).inputs.length := by
      rw [hnode]; decide
    rw [NodeNav.move_back]
    dsimp only [NodeNav.select_input_socket]
    rw [if_pos hlen]
    dsimp only
    rw [hlinks]
    dsimp only
    rcases Nat.eq_zero_or_pos m with hm | hm
    · subst hm
      rw [if_neg (by rw [chain_node_zero]; decide)]
    · have ht : ((rerouteChainGraph n).node m).ntype = "REROUTE" := by
        rw [chain_node_mid n m (by omega) (by omega)]; rfl
      rw [if_pos (by rw [ht]; exact Or.inl rfl)]
      cases fuel with
      | zero => omega
      | succ f =>
        dsimp only
        rw [if_pos ht]
        exact ih (by omega) (by omega) f st true (by omega)

/-- Moving back through the consumer's input of the n-reroute chain
always lands on the producer's output, stack unchanged. -/
theorem chain_moveback_main (n fuel : Nat) (st : List (NodeId × Option (NodeId × Nat)))
    (b : Bool) (hfuel : n ≤ fuel) :
    NodeNav.move_back (rerouteChainGraph n) fuel
      { node := n + 1, in_socket := some (n + 1, 0), out_socket := none, stack := st, moved := b }
      none
    = .ok { node := 0, in_socket := none, out_socket := some (0, 0), stack := st, moved := true } := by
  have hlinks : (rerouteChainGraph n).inLinks (n + 1, 0) = [⟨n, 0, n + 1, 0⟩] :=
    chain_inLinks n (n + 1) (by omega) (by omega)
  rw [NodeNav.move_back]
  dsimp only [NodeNav.select_input_socket]
  rw [hlinks]
  dsimp only
  rcases Nat.eq_zero_or_pos n with hn | hn
  · subst hn
    rw [if_neg (by rw [chain_node_zero]; decide)]
  · have ht : ((rerouteChainGraph n).node n).ntype = "REROUTE" := by
      rw [chain_node_mid n n (by omega) (by omega)]; rfl
    rw [if_pos (by rw [ht]; exact Or.inl rfl)]
    cases fuel with
    | zero => omega
    | succ f =>
      dsimp only
      rw [if_pos ht]
      exact chain_moveback_aux n n (by omega) (by omega) f st true (by omega)

/-- C9: `move_back` through a chain of N reroute nodes between producer
and consumer ends at the same node, output socket and group-context
stack as `move_back` through the direct producer-to-consumer link (the
N = 0 graph): both equal the cursor sitting on the producer's output
with the caller's stack unchanged and `moved` set. -/
theorem move_back_reroute_chain_transparent (n fuel fuel0 : Nat)
    (st : List (NodeId × Option (NodeId × Nat))) (b b0 : Bool) (hfuel : n ≤ fuel) :
    NodeNav.move_back (rerouteChainGraph n) fuel
        { node := n + 1, in_socket := some (n + 1, 0), out_socket := none, stack := st, moved := b } none
      = .ok { node := 0, in_socket := none, out_socket := some (0, 0), stack := st, moved := true } ∧
    NodeNav.move_back (rerouteChainGraph n) fuel
        { node := n + 1, in_socket := some (n + 1, 0), out_socket := none, stack := st, moved := b } none
      = NodeNav.move_back (rerouteChainGraph 0) fuel0
        { node := 1, in_socket := some (1, 0), out_socket := none, stack := st, moved := b0 } none :=
  ⟨chain_moveback_main n fuel st b hfuel,
   (chain_moveback_main n fuel st b hfuel).trans
     (chain_moveback_main 0 fuel0 st b0 (by omega)).symm⟩

/-- Witness for C9 at N = 3 with fuel 9 and a non-empty starting stack. -/
theorem move_back_reroute_chain_transparent_witness :
    NodeNav.move_back (rerouteChainGraph 3) 9
        { node := 4, in_socket := some (4, 0), out_socket := none, stack := [(7, none)], moved := false } none
      = .ok { node := 0, in_socket := none, out_socket := some (0, 0), stack := [(7, none)], moved := true } ∧
    NodeNav.move_back (rerouteChainGraph 3) 9
        { node := 4, in_socket := some (4, 0), out_socket := none, stack := [(7, none)], moved := false } none
      = NodeNav.move_back (rerouteChainGraph 0) 5
        { node := 1, in_socket := some (1, 0), out_socket := none, stack := [(7, none)], moved := false } none :=
  move_back_reroute_chain_transparent 3 9 5 [(7, none)] false false (by decide)

/-- C10: each detector is atomic on its cursor: whenever it returns a
`none` result (no detection), the cursor it hands back is exactly the
cursor it was given; the cursor is advanced only together with a
non-`none` result. -/
theorem detectors_atomic_on_no_detection (g : Graph) (fuel : Nat) (nav nav2 : NodeNav) :
    (detect_alpha_clip g fuel nav = .ok (nav2, none) → nav2 = nav) ∧
    (detect_multiply_by_constant g fuel nav = .ok (nav2, none) → nav2 = nav) ∧
    (detect_multiply_by_color_attrib g fuel nav = .ok (nav2, none) → nav2 = nav) := by
  refine ⟨fun h => ?_, fun h => ?_, fun h => ?_⟩
  · unfold detect_alpha_clip at h
    repeat' split at h
    all_goals simp_all
  · unfold detect_multiply_by_constant at h
    repeat' split at h
    all_goals simp_all
  · unfold detect_multiply_by_color_attrib at h
    repeat' split at h
    all_goals simp_all

/-- Witness for C10: on the unlinked constant-alpha graph all three
detectors fail to detect, and the theorem yields the unchanged cursor. -/
theorem detectors_atomic_on_no_detection_witness :
    (detect_alpha_clip gAlphaBlend 9 alphaNav = .ok (alphaNav, none) ∧ alphaNav = alphaNav) ∧
    (detect_multiply_by_constant gAlphaBlend 9 alphaNav = .ok (alphaNav, none) ∧ alphaNav = alphaNav) ∧
    (detect_multiply_by_color_attrib gAlphaBlend 9 alphaNav = .ok (alphaNav, none) ∧ alphaNav = alphaNav) :=
  ⟨⟨by decide, (detectors_atomic_on_no_detection gAlphaBlend 9 alphaNav alphaNav).1 (by decide)⟩,
   ⟨by decide, (detectors_atomic_on_no_detection gAlphaBlend 9 alphaNav alphaNav).2.1 (by decide)⟩,
   ⟨by decide, (detectors_atomic_on_no_detection gAlphaBlend 9 alphaNav alphaNav).2.2 (by decide)⟩⟩

/-- Helper: `get_constant` on a connected input whose producer (the peek
landing point) is not the matching bare literal node yields no value. -/
theorem get_constant_linked_not_literal (g : Graph) (fuel : Nat) (nav : NodeNav)
    (is : NodeId × Nat) (pk : NodeNav)
    (hin : nav.in_socket = some is)
    (hlink : g.inLinks is ≠ [])
    (hpk : nav.peek_back g fuel none = .ok pk)
    (hrgb : (g.inSock is).ty = .RGBA → (g.node pk.node).ntype ≠ "RGB")
    (hval : (g.inSock is).ty = .VALUE → (g.node pk.node).ntype ≠ "VALUE") :
    nav.get_constant g fuel none = .ok (nav, none) := by
  obtain ⟨l, t, hl⟩ := List.exists_cons_of_ne_nil hlink
  unfold NodeNav.get_constant
  dsimp only [NodeNav.select_input_socket]
  rw [hin]
  dsimp only
  rw [hl]
  dsimp only
  rw [hpk]
  dsimp only
  cases hmv : pk.moved with
  | false => simp
  | true =>
    simp only [if_true]
    cases hty : (g.inSock is).ty with
    | RGBA => rw [if_neg (hrgb hty)]
    | VALUE => rw [if_neg (hval hty)]
    | VECTOR => rfl
    | SHADER => rfl
    | OTHER => rfl

/-- Helper: `get_constant` on an unconnected input returns the socket's
default (alpha dropped for colors). -/
theorem get_constant_unlinked (g : Graph) (fuel : Nat) (nav : NodeNav)
    (is : NodeId × Nat) (hin : nav.in_socket = some is) (hnl : g.inLinks is = []) :
    ((g.inSock is).ty = .VALUE →
      nav.get_constant g fuel none = .ok (nav, some ((g.inSock is).default_value))) ∧
    (∀ xs, (g.inSock is).ty = .RGBA → (g.inSock is).default_value = .arr xs →
      nav.get_constant g fuel none = .ok (nav, some (.arr (xs.take 3)))) := by
  constructor
  · intro hty
    unfold NodeNav.get_constant
    dsimp only [NodeNav.select_input_socket]
    rw [hin]
    dsimp only
    rw [hnl, hty]
  · intro xs hty hdv
    unfold NodeNav.get_constant
    dsimp only [NodeNav.select_input_socket]
    rw [hin]
    dsimp only
    rw [hnl, hty]
    dsimp only
    rw [hdv]

/-- Helper: `get_factor` on a connected input whose producer is neither a
bare literal nor the matching multiply idiom yields no value. -/
theorem get_factor_linked_not_idiom (g : Graph) (fuel : Nat) (nav : NodeNav)
    (is : NodeId × Nat) (pk : NodeNav)
    (hin : nav.in_socket = some is)
    (hlink : g.inLinks is ≠ [])
    (hpk : nav.peek_back g fuel none = .ok pk)
    (hrgb : (g.inSock is).ty = .RGBA → (g.node pk.node).ntype ≠ "RGB")
    (hval : (g.inSock is).ty = .VALUE → (g.node pk.node).ntype ≠ "VALUE")
    (hrgbm : (g.inSock is).ty = .RGBA →
      ¬ ((g.node pk.node).ntype = "MIX" ∧ (g.node pk.node).data_type = "RGBA"
          ∧ (g.node pk.node).blend_type = "MULTIPLY"))
    (hvalm : (g.inSock is).ty = .VALUE →
      ¬ ((g.node pk.node).ntype = "MATH" ∧ (g.node pk.node).operation = "MULTIPLY")) :
    nav.get_factor g fuel none = .ok (nav, none) := by
  unfold NodeNav.get_factor
  dsimp only [NodeNav.select_input_socket]
  rw [hin]
  dsimp only
  rw [get_constant_linked_not_literal g fuel nav is pk hin hlink hpk hrgb hval]
  dsimp only
  rw [hpk]
  dsimp only
  cases hmv : pk.moved with
  | false => simp
  | true =>
    simp only [if_true]
    cases hty : (g.inSock is).ty with
    | RGBA => rw [if_neg (hrgbm hty)]
    | VALUE => rw [if_neg (hvalm hty)]
    | VECTOR => rfl
    | SHADER => rfl
    | OTHER => rfl

/-- C5: an unconnected scalar input yields exactly its default through
`get_constant`, an unconnected color input yields its default with the
alpha channel dropped, and a connected input whose producer is neither a
bare literal node nor (for `get_factor`) the multiply idiom yields no
value from either extractor. -/
theorem extractor_default_and_no_value :
    (∀ (g : Graph) (fuel : Nat) (nav : NodeNav) (is : NodeId × Nat),
      nav.in_socket = some is → g.inLinks is = [] → (g.inSock is).ty = .VALUE →
      nav.get_constant g fuel none = .ok (nav, some ((g.inSock is).default_value))) ∧
    (∀ (g : Graph) (fuel : Nat) (nav : NodeNav) (is : NodeId × Nat) (xs : List Q),
      nav.in_socket = some is → g.inLinks is = [] → (g.inSock is).ty = .RGBA →
      (g.inSock is).default_value = .arr xs →
      nav.get_constant g fuel none = .ok (nav, some (.arr (xs.take 3)))) ∧
    (∀ (g : Graph) (fuel : Nat) (nav : NodeNav) (is : NodeId × Nat) (pk : NodeNav),
      nav.in_socket = some is → g.inLinks is ≠ [] → nav.peek_back g fuel none = .ok pk →
      ((g.inSock is).ty = .RGBA → (g.node pk.node).ntype ≠ "RGB") →
      ((g.inSock is).ty = .VALUE → (g.node pk.node).ntype ≠ "VALUE") →
      nav.get_constant g fuel none = .ok (nav, none)) ∧
    (∀ (g : Graph) (fuel : Nat) (nav : NodeNav) (is : NodeId × Nat) (pk : NodeNav),
      nav.in_socket = some is → g.inLinks is ≠ [] → nav.peek_back g fuel none = .ok pk →
      ((g.inSock is).ty = .RGBA → (g.node pk.node).ntype ≠ "RGB") →
      ((g.inSock is).ty = .VALUE → (g.node pk.node).ntype ≠ "VALUE") →
      ((g.inSock is).ty = .RGBA →
        ¬ ((g.node pk.node).ntype = "MIX" ∧ (g.node pk.node).data_type = "RGBA"
            ∧ (g.node pk.node).blend_type = "MULTIPLY")) →
      ((g.inSock is).ty = .VALUE →
        ¬ ((g.node pk.node).ntype = "MATH" ∧ (g.node pk.node).operation = "MULTIPLY")) →
      nav.get_factor g fuel none = .ok (nav, none)) :=
  ⟨fun g fuel nav is hin hnl hty => (get_constant_unlinked g fuel nav is hin hnl).1 hty,
   fun g fuel nav is xs hin hnl hty hdv => (get_constant_unlinked g fuel nav is hin hnl).2 xs hty hdv,
   fun g fuel nav is pk hin hlink hpk hrgb hval =>
     get_constant_linked_not_literal g fuel nav is pk hin hlink hpk hrgb hval,
   fun g fuel nav is pk hin hlink hpk hrgb hval hrgbm hvalm =>
     get_factor_linked_not_idiom g fuel nav is pk hin hlink hpk hrgb hval hrgbm hvalm⟩

/-- The cursor reached by peeking back through the Alpha input of the
round-node graph (the Math:Round node's output). -/
def pkRound : NodeNav :=
  { node := 1, in_socket := none, out_socket := some (1, 0), stack := [], moved := true }

/-- Witness for C5: the unlinked scalar default 0.25, the unlinked color
default with alpha dropped, and a Math:Round producer (neither literal
nor multiply) giving no value from either extractor. -/
theorem extractor_default_and_no_value_witness :
    (NodeNav.get_constant gAlphaBlend 9 alphaNav none
        = .ok (alphaNav, some ((gAlphaBlend.inSock (0, 0)).default_value)) ∧
      (gAlphaBlend.inSock (0, 0)).default_value = .num (Q.mk 1 4)) ∧
    (NodeNav.get_constant gColorDefault 9 alphaNav none
        = .ok (alphaNav, some (.arr ([Q.mk 1 2, Q.mk 1 4, Q.mk 1 8, 1].take 3)))) ∧
    (NodeNav.peek_back gAlphaRound 9 alphaNav none = .ok pkRound ∧
      NodeNav.get_constant gAlphaRound 9 alphaNav none = .ok (alphaNav, none) ∧
      NodeNav.get_factor gAlphaRound 9 alphaNav none = .ok (alphaNav, none)) :=
  ⟨⟨extractor_default_and_no_value.1 gAlphaBlend 9 alphaNav (0, 0) rfl (by decide) rfl, rfl⟩,
   extractor_default_and_no_value.2.1 gColorDefault 9 alphaNav (0, 0)
     [Q.mk 1 2, Q.mk 1 4, Q.mk 1 8, 1] rfl (by decide) rfl rfl,
   ⟨by decide,
    extractor_default_and_no_value.2.2.1 gAlphaRound 9 alphaNav (0, 0) pkRound rfl
      (by decide) (by decide) (fun _ => by decide) (fun _ => by decide),
    extractor_default_and_no_value.2.2.2 gAlphaRound 9 alphaNav (0, 0) pkRound rfl
      (by decide) (by decide) (fun _ => by decide) (fun _ => by decide)
      (fun _ => by decide) (fun _ => by decide)⟩⟩

/-- Concrete stand-in for the sine oracle; evaluations below only take
code paths that never consult it. -/
def sinPl : Q → Q := fun _ => 0

/-- Concrete stand-in for the cosine oracle. -/
def cosPl : Q → Q := fun _ => 1

/-- Concrete stand-in for the Blender-to-glTF transform conversion. -/
def convPl : TT0 → TT0 := fun t => t

/-- A TEXTURE-mode mapping node with a non-zero X rotation, zero Z
rotation, offset (0.1, 0.2) and scales (2, 3). -/
def mappingNodeXRot : Node :=
  { ntype := "MAPPING", vector_type := "TEXTURE",
    inputs :=
      [{ name := "Location", ty := .VECTOR, default_value := .arr [Q.mk 1 10, Q.mk 1 5, 0] },
       { name := "Rotation", ty := .VECTOR, default_value := .arr [1, 0, 0] },
       { name := "Scale", ty := .VECTOR, default_value := .arr [2, 3, 1] }] }

/-- C7 counterexample: this TEXTURE-mode mapping node has Z rotation 0
(negligible) and scales 2, 3 (not near zero), so neither of the claimed
none-conditions holds, yet the function returns none (it rejects every
non-zero X/Y rotation before inverting).  The transform-conversion and
trigonometry oracles are instantiated arbitrarily; the rejection happens
before either is consulted. -/
theorem get_texture_transform_xrot_counterexample :
    get_texture_transform_from_mapping_node sinPl cosPl convPl mappingNodeXRot = .ok none ∧
    mappingNodeXRot.vector_type = "TEXTURE" ∧
    (((Q.mk 1 100000).qlt ((0 : Q).qabs) && (Q.mk 1 100000).qlt (((2 : Q).sub 3).qabs))
      || (2 : Q).qabs.qlt (Q.mk 1 100000) || (3 : Q).qabs.qlt (Q.mk 1 100000)) = false := by
  refine ⟨by decide, rfl, by decide⟩

/-- C7 (amended): for a TEXTURE-mode mapping node with zero X/Y rotation
components, the result is none when the claimed non-TRS-invertible
conditions hold (non-negligible Z rotation with differing scale axes, or
a near-zero scale axis); otherwise it is the algebraically inverted TRS
(negated rotation, reciprocal scales, rotated negated offset divided by
the scales), converted for the serializer and with default-valued fields
omitted (which yields none when every component is default). -/
theorem get_texture_transform_texture_mode (sinf cosf : Q → Q) (conv : TT0 → TT0)
    (m : Node) (rs ls ss : Socket) (rz lx ly lz sx sy sz : Q)
    (hmode : m.vector_type = "TEXTURE")
    (hrs : m.inputByName "Rotation" = .ok rs)
    (hrv : rs.default_value = .arr [0, 0, rz])
    (hls : m.inputByName "Location" = .ok ls)
    (hlv : ls.default_value = .arr [lx, ly, lz])
    (hss : m.inputByName "Scale" = .ok ss)
    (hsv : ss.default_value = .arr [sx, sy, sz]) :
    ((((Q.mk 1 100000).qlt rz.qabs && (Q.mk 1 100000).qlt ((sx.sub sy).qabs))
        || sx.qabs.qlt (Q.mk 1 100000) || sy.qabs.qlt (Q.mk 1 100000)) = true →
      get_texture_transform_from_mapping_node sinf cosf conv m = .ok none) ∧
    ((((Q.mk 1 100000).qlt rz.qabs && (Q.mk 1 100000).qlt ((sx.sub sy).qabs))
        || sx.qabs.qlt (Q.mk 1 100000) || sy.qabs.qlt (Q.mk 1 100000)) = false →
      get_texture_transform_from_mapping_node sinf cosf conv m
        = .ok (stripDefaults (conv
            { offset := ((((cosf rz.neg).mul lx.neg).sub ((sinf rz.neg).mul ly.neg)).div sx,
                         (((sinf rz.neg).mul lx.neg).add ((cosf rz.neg).mul ly.neg)).div sy),
              rotation := rz.neg,
              scale := ((1 : Q).div sx, (1 : Q).div sy) }))) := by
  have key : get_texture_transform_from_mapping_node sinf cosf conv m =
      (match invertedTRS sinf cosf { offset := (lx, ly), rotation := rz, scale := (sx, sy) } with
       | none => .ok none
       | some inv => .ok (stripDefaults (conv inv))) := by
    unfold get_texture_transform_from_mapping_node
    rw [hmode, hrs, hls, hss]
    dsimp only
    rw [hrv, hlv, hsv]
    simp [Val.index, Q.qeq]
  constructor
  · intro hcond
    rw [key]
    by_cases hAB : ((Q.mk 1 100000).qlt rz.qabs && (Q.mk 1 100000).qlt ((sx.sub sy).qabs)) = true
    · unfold invertedTRS
      rw [if_pos hAB]
    · have hAB2 : ((Q.mk 1 100000).qlt rz.qabs && (Q.mk 1 100000).qlt ((sx.sub sy).qabs)) = false :=
        Bool.eq_false_iff.mpr hAB
      have hCD : (sx.qabs.qlt (Q.mk 1 100000) || sy.qabs.qlt (Q.mk 1 100000)) = true := by
        simpa [hAB2] using hcond
      unfold invertedTRS
      rw [if_neg (by simp [hAB2]), if_pos hCD]
  · intro hcond
    rw [key]
    simp only [Bool.or_eq_false_iff] at hcond
    obtain ⟨⟨hAB, hC⟩, hD⟩ := hcond
    unfold invertedTRS
    rw [if_neg (by simp [hAB]), if_neg (by simp [hC, hD])]

/-- The Rotation socket of the C7 witness node (Z rotation 1). -/
def rotZSockW : Socket := { name := "Rotation", ty := .VECTOR, default_value := .arr [0, 0, 1] }

/-- The Location socket of the C7 witness node. -/
def locSockW : Socket :=
  { name := "Location", ty := .VECTOR, default_value := .arr [Q.mk 1 10, Q.mk 1 5, 0] }

/-- The Scale socket of the C7 witness node (scales 2 and 3). -/
def scSockW : Socket := { name := "Scale", ty := .VECTOR, default_value := .arr [2, 3, 1] }

/-- A TEXTURE-mode mapping node with non-negligible Z rotation and
differing scale axes. -/
def mappingNodeRotZ : Node :=
  { ntype := "MAPPING", vector_type := "TEXTURE", inputs := [locSockW, rotZSockW, scSockW] }

/-- Witness for C7: a TEXTURE-mode node with Z rotation 1 and scales 2, 3
(rotation non-negligible, scales differing) is declined. -/
theorem get_texture_transform_texture_mode_witness :
    get_texture_transform_from_mapping_node sinPl cosPl convPl mappingNodeRotZ = .ok none :=
  (get_texture_transform_texture_mode sinPl cosPl convPl mappingNodeRotZ rotZSockW locSockW
    scSockW 1 (Q.mk 1 10) (Q.mk 1 5) 0 2 3 1 rfl (by decide) rfl (by decide) rfl (by decide)
    rfl).1 (by decide)

/-- Bundle stage, failure shape: a `False` result never carries data. -/
theorem detect_anisotropy_bundle_ok_false {g : Graph} {fuel : Nat} {gp : List NodeId}
    {tn mul rotn mad : NodeId} {d : Option AnisotropyData} :
    detect_anisotropy_bundle g fuel gp tn mul rotn mad = .ok (false, d) → d = none := by
  intro h
  unfold detect_anisotropy_bundle at h
  repeat' split at h
  all_goals
    first
      | exact Except.noConfusion h
      | (injection h with h1; injection h1 with hb hd
         first | exact hd.symm | exact Bool.noConfusion hb)

/-- Bundle stage, success shape: the texture has an image and the data
is exactly the strength / rotation-offset / uv-map / texture-socket
record. -/
theorem detect_anisotropy_bundle_ok_true {g : Graph} {fuel : Nat} {gp : List NodeId}
    {tn mul rotn mad : NodeId} {d : Option AnisotropyData} :
    detect_anisotropy_bundle g fuel gp tn mul rotn mad = .ok (true, d) →
    has_image_node_from_socket g fuel { socket := some ⟨mad, false, 0⟩, group_path := gp } = .ok true ∧
    ∃ strength rotation,
      get_const_from_socket g fuel { socket := some ⟨mul, false, 1⟩, group_path := gp } = .ok strength ∧
      get_const_from_socket g fuel { socket := some ⟨rotn, false, 1⟩, group_path := gp } = .ok rotation ∧
      d = some { anisotropyStrength := strength, anisotropyRotation := rotation,
                 tangent := (g.node tn).uv_map,
                 tex_socket := { socket := some ⟨mad, false, 0⟩, group_path := gp } } := by
  intro h
  unfold detect_anisotropy_bundle at h
  repeat' split at h
  all_goals
    first
      | exact Except.noConfusion h
      | (injection h with h1; injection h1 with hb hd; exact Bool.noConfusion hb)
      | skip
  refine ⟨by assumption, ?_, ?_, by assumption, by assumption,
    by injection h with h1; injection h1 with hb hd; exact hd.symm⟩

/-- Multiply-add stage, failure shape. -/
theorem detect_anisotropy_mad_ok_false {g : Graph} {fuel : Nat} {gp : List NodeId}
    {tn mul rotn sep : NodeId} {d : Option AnisotropyData} :
    detect_anisotropy_mad g fuel gp tn mul rotn sep = .ok (false, d) → d = none := by
  intro h
  unfold detect_anisotropy_mad at h
  repeat' split at h
  all_goals
    first
      | exact Except.noConfusion h
      | exact detect_anisotropy_bundle_ok_false h
      | (injection h with h1; injection h1 with hb hd
         first | exact hd.symm | exact Bool.noConfusion hb)

/-- Multiply-add stage, success shape. -/
theorem detect_anisotropy_mad_ok_true {g : Graph} {fuel : Nat} {gp : List NodeId}
    {tn mul rotn sep : NodeId} {d : Option AnisotropyData} :
    detect_anisotropy_mad g fuel gp tn mul rotn sep = .ok (true, d) →
    ∃ (pl : Link) (plt : List Link) (v1 v2 : List Q) (xl : Link) (xlt : List Link),
      g.inLinks (sep, 0) = pl :: plt ∧
      (g.node pl.from_node).ntype = "VECT_MATH" ∧
      (g.node pl.from_node).operation = "MULTIPLY_ADD" ∧
      (g.inSock (pl.from_node, 1)).default_value = .arr v1 ∧
      listQeq v1 [2, 2, 1] = true ∧
      (g.inSock (pl.from_node, 2)).default_value = .arr v2 ∧
      listQeq v2 [Q.mk (-1) 1, Q.mk (-1) 1, 0] = true ∧
      g.inLinks (pl.from_node, 0) = xl :: xlt ∧
      (g.node xl.from_node).ntype = "TEX_IMAGE" ∧
      detect_anisotropy_bundle g fuel gp tn mul rotn pl.from_node = .ok (true, d) := by
  intro h
  unfold detect_anisotropy_mad at h
  repeat' split at h
  all_goals
    first
      | exact Except.noConfusion h
      | (injection h with h1; injection h1 with hb hd; exact Bool.noConfusion hb)
      | skip
  refine ⟨_, _, _, _, _, _, by assumption, by assumption, by assumption, by assumption,
    by assumption, by assumption, by assumption, by assumption, by assumption, h⟩

/-- Principled-connection stage, failure shape. -/
theorem detect_anisotropy_principled_ok_false {g : Graph} {fuel : Nat} {gp : List NodeId}
    {tn mul rotn sep conv : NodeId} {d : Option AnisotropyData} :
    detect_anisotropy_principled g fuel gp tn mul rotn sep conv = .ok (false, d) → d = none := by
  intro h
  unfold detect_anisotropy_principled at h
  repeat' split at h
  all_goals
    first
      | exact Except.noConfusion h
      | exact detect_anisotropy_mad_ok_false h
      | (injection h with h1; injection h1 with hb hd
         first | exact hd.symm | exact Bool.noConfusion hb)

/-- Principled-connection stage, success shape. -/
theorem detect_anisotropy_principled_ok_true {g : Graph} {fuel : Nat} {gp : List NodeId}
    {tn mul rotn sep conv : NodeId} {d : Option AnisotropyData} :
    detect_anisotropy_principled g fuel gp tn mul rotn sep conv = .ok (true, d) →
    ∃ (cl : Link) (clt : List Link),
      g.outLinks (conv, 0) = cl :: clt ∧
      (g.inSock (cl.to_node, cl.to_socket)).name = "Anisotropic Rotation" ∧
      (g.node cl.to_node).ntype = "BSDF_PRINCIPLED" ∧
      detect_anisotropy_mad g fuel gp tn mul rotn sep = .ok (true, d) := by
  intro h
  unfold detect_anisotropy_principled at h
  repeat' split at h
  all_goals
    first
      | exact Except.noConfusion h
      | (injection h with h1; injection h1 with hb hd; exact Bool.noConfusion hb)
      | skip
  refine ⟨_, _, by assumption, by assumption, by assumption, h⟩

/-- Rotation-conversion stage, failure shape. -/
theorem detect_anisotropy_rotchain_ok_false {g : Graph} {fuel : Nat} {gp : List NodeId}
    {tn mul sep atan : NodeId} {d : Option AnisotropyData} :
    detect_anisotropy_rotchain g fuel gp tn mul sep atan = .ok (false, d) → d = none := by
  intro h
  unfold detect_anisotropy_rotchain at h
  repeat' split at h
  all_goals
    first
      | exact Except.noConfusion h
      | exact detect_anisotropy_principled_ok_false h
      | (injection h with h1; injection h1 with hb hd
         first | exact hd.symm | exact Bool.noConfusion hb)

/-- Rotation-conversion stage, success shape. -/
theorem detect_anisotropy_rotchain_ok_true {g : Graph} {fuel : Nat} {gp : List NodeId}
    {tn mul sep atan : NodeId} {d : Option AnisotropyData} :
    detect_anisotropy_rotchain g fuel gp tn mul sep atan = .ok (true, d) →
    ∃ (tl : Link) (tlt : List Link) (rl : Link) (rlt : List Link) (pi2 : Q),
      g.outLinks (atan, 0) = tl :: tlt ∧
      (g.node tl.to_node).ntype = "MATH" ∧
      (g.node tl.to_node).operation = "ADD" ∧
      g.outLinks (tl.to_node, 0) = rl :: rlt ∧
      (g.node rl.to_node).ntype = "MATH" ∧
      (g.node rl.to_node).operation = "DIVIDE" ∧
      (g.inSock (rl.to_node, 1)).default_value = .num pi2 ∧
      ¬ ((Q.mk 1 10000).qlt ((pi2.sub (Q.mk 6283185 1000000)).qabs) = true) ∧
      detect_anisotropy_principled g fuel gp tn mul tl.to_node sep rl.to_node = .ok (true, d) := by
  intro h
  unfold detect_anisotropy_rotchain at h
  repeat' split at h
  all_goals
    first
      | exact Except.noConfusion h
      | (injection h with h1; injection h1 with hb hd; exact Bool.noConfusion hb)
      | skip
  refine ⟨_, _, _, _, _, by assumption, by assumption, by assumption, by assumption,
    by assumption, by assumption, by assumption, by assumption, h⟩

/-- Separate-XYZ / arctangent stage, failure shape. -/
theorem detect_anisotropy_sepchain_ok_false {g : Graph} {fuel : Nat} {gp : List NodeId}
    {tn mul : NodeId} {d : Option AnisotropyData} :
    detect_anisotropy_sepchain g fuel gp tn mul = .ok (false, d) → d = none := by
  intro h
  unfold detect_anisotropy_sepchain at h
  repeat' split at h
  all_goals
    first
      | exact Except.noConfusion h
      | exact detect_anisotropy_rotchain_ok_false h
      | (injection h with h1; injection h1 with hb hd
         first | exact hd.symm | exact Bool.noConfusion hb)

/-- Separate-XYZ / arctangent stage, success shape. -/
theorem detect_anisotropy_sepchain_ok_true {g : Graph} {fuel : Nat} {gp : List NodeId}
    {tn mul : NodeId} {d : Option AnisotropyData} :
    detect_anisotropy_sepchain g fuel gp tn mul = .ok (true, d) →
    ∃ (ml : Link) (mlt : List Link) (sl : Link) (slt : List Link)
      (a0 : Link) (a0t : List Link) (a1 : Link) (a1t : List Link),
      g.inLinks (mul, 0) = ml :: mlt ∧
      (g.node ml.from_node).ntype = "SEPXYZ" ∧
      (g.outSock (ml.from_node, ml.from_socket)).name = "Z" ∧
      g.outLinks (ml.from_node, 0) = sl :: slt ∧
      (g.node sl.to_node).ntype = "MATH" ∧
      (g.node sl.to_node).operation = "ARCTAN2" ∧
      g.inLinks (sl.to_node, 0) = a0 :: a0t ∧
      (g.outSock (a0.from_node, a0.from_socket)).name = "Y" ∧
      g.inLinks (sl.to_node, 1) = a1 :: a1t ∧
      (g.outSock (a1.from_node, a1.from_socket)).name = "X" ∧
      detect_anisotropy_rotchain g fuel gp tn mul ml.from_node sl.to_node = .ok (true, d) := by
  intro h
  unfold detect_anisotropy_sepchain at h
  repeat' split at h
  all_goals
    first
      | exact Except.noConfusion h
      | (injection h with h1; injection h1 with hb hd; exact Bool.noConfusion hb)
      | skip
  refine ⟨_, _, _, _, _, _, _, _, by assumption, by assumption, by assumption, by assumption,
    by assumption, by assumption, by assumption, by assumption, by assumption, by assumption, h⟩

/-- Top stage, failure shape. -/
theorem detect_anisotropy_nodes_ok_false {g : Graph} {fuel : Nat} {s1 s2 s3 : NodeSocket}
    {d : Option AnisotropyData} :
    detect_anisotropy_nodes g fuel s1 s2 s3 = .ok (false, d) → d = none := by
  intro h
  unfold detect_anisotropy_nodes at h
  repeat' split at h
  all_goals
    first
      | exact Except.noConfusion h
      | exact detect_anisotropy_sepchain_ok_false h
      | (injection h with h1; injection h1 with hb hd
         first | exact hd.symm | exact Bool.noConfusion hb)

/-- Top stage, success shape. -/
theorem detect_anisotropy_nodes_ok_true {g : Graph} {fuel : Nat} {s1 s2 s3 : NodeSocket}
    {d : Option AnisotropyData} :
    detect_anisotropy_nodes g fuel s1 s2 s3 = .ok (true, d) →
    ∃ (aptr rptr tptr : SockPtr) (tnode : ShNode) (tn : NodeId) (al : Link) (alt : List Link),
      s1.socket = some aptr ∧ s2.socket = some rptr ∧ s3.socket = some tptr ∧
      previous_node g fuel s3 = .ok tnode ∧ tnode.node = some tn ∧
      (g.node tn).ntype = "TANGENT" ∧
      (g.node tn).direction_type = "UV_MAP" ∧
      g.ptrIsLinked aptr = true ∧ g.ptrIsLinked rptr = true ∧ g.ptrIsLinked tptr = true ∧
      g.ptrLinks aptr = al :: alt ∧
      (g.node al.from_node).ntype = "MATH" ∧
      (g.node al.from_node).operation = "MULTIPLY" ∧
      detect_anisotropy_sepchain g fuel s1.group_path tn al.from_node = .ok (true, d) := by
  intro h
  unfold detect_anisotropy_nodes at h
  repeat' split at h
  all_goals
    first
      | exact Except.noConfusion h
      | (injection h with h1; injection h1 with hb hd; exact Bool.noConfusion hb)
      | skip
  refine ⟨_, _, _, _, _, _, _, by assumption, by assumption, by assumption, by assumption,
    by assumption, by assumption, by assumption, by assumption, by assumption, by assumption,
    by assumption, by assumption, by assumption, h⟩

/-- The structural requirements of the anisotropy idiom, spelled out as
the claim states them: every link of the chain, every node type and
operation code, the fixed constants (the 2*pi divisor within 1e-4, the
[2,2,1] / [-1,-1,0] remap vectors), the UV-mapped tangent node, and the
exact success payload. -/
def anisoSuccessSpec (g : Graph) (fuel : Nat) (s1 s2 s3 : NodeSocket)
    (d : Option AnisotropyData) : Prop :=
  ∃ (aptr rptr tptr : SockPtr) (tnode : ShNode) (tn : NodeId) (al : Link) (alt : List Link)
    (ml : Link) (mlt : List Link) (sl : Link) (slt : List Link)
    (a0 : Link) (a0t : List Link) (a1 : Link) (a1t : List Link)
    (tl : Link) (tlt : List Link) (rl : Link) (rlt : List Link) (pi2 : Q)
    (cl : Link) (clt : List Link) (pl : Link) (plt : List Link)
    (v1 v2 : List Q) (xl : Link) (xlt : List Link)
    (strength rotation : Option Val),
    s1.socket = some aptr ∧
    s2.socket = some rptr ∧
    s3.socket = some tptr ∧
    previous_node g fuel s3 = .ok tnode ∧
    tnode.node = some tn ∧
    (g.node tn).ntype = "TANGENT" ∧
    (g.node tn).direction_type = "UV_MAP" ∧
    g.ptrIsLinked aptr = true ∧
    g.ptrIsLinked rptr = true ∧
    g.ptrIsLinked tptr = true ∧
    g.ptrLinks aptr = al :: alt ∧
    (g.node al.from_node).ntype = "MATH" ∧
    (g.node al.from_node).operation = "MULTIPLY" ∧
    g.inLinks (al.from_node, 0) = ml :: mlt ∧
    (g.node ml.from_node).ntype = "SEPXYZ" ∧
    (g.outSock (ml.from_node, ml.from_socket)).name = "Z" ∧
    g.outLinks (ml.from_node, 0) = sl :: slt ∧
    (g.node sl.to_node).ntype = "MATH" ∧
    (g.node sl.to_node).operation = "ARCTAN2" ∧
    g.inLinks (sl.to_node, 0) = a0 :: a0t ∧
    (g.outSock (a0.from_node, a0.from_socket)).name = "Y" ∧
    g.inLinks (sl.to_node, 1) = a1 :: a1t ∧
    (g.outSock (a1.from_node, a1.from_socket)).name = "X" ∧
    g.outLinks (sl.to_node, 0) = tl :: tlt ∧
    (g.node tl.to_node).ntype = "MATH" ∧
    (g.node tl.to_node).operation = "ADD" ∧
    g.outLinks (tl.to_node, 0) = rl :: rlt ∧
    (g.node rl.to_node).ntype = "MATH" ∧
    (g.node rl.to_node).operation = "DIVIDE" ∧
    (g.inSock (rl.to_node, 1)).default_value = .num pi2 ∧
    ¬ ((Q.mk 1 10000).qlt ((pi2.sub (Q.mk 6283185 1000000)).qabs) = true) ∧
    g.outLinks (rl.to_node, 0) = cl :: clt ∧
    (g.inSock (cl.to_node, cl.to_socket)).name = "Anisotropic Rotation" ∧
    (g.node cl.to_node).ntype = "BSDF_PRINCIPLED" ∧
    g.inLinks (ml.from_node, 0) = pl :: plt ∧
    (g.node pl.from_node).ntype = "VECT_MATH" ∧
    (g.node pl.from_node).operation = "MULTIPLY_ADD" ∧
    (g.inSock (pl.from_node, 1)).default_value = .arr v1 ∧
    listQeq v1 [2, 2, 1] = true ∧
    (g.inSock (pl.from_node, 2)).default_value = .arr v2 ∧
    listQeq v2 [Q.mk (-1) 1, Q.mk (-1) 1, 0] = true ∧
    g.inLinks (pl.from_node, 0) = xl :: xlt ∧
    (g.node xl.from_node).ntype = "TEX_IMAGE" ∧
    has_image_node_from_socket g fuel
      { socket := some ⟨pl.from_node, false, 0⟩, group_path := s1.group_path } = .ok true ∧
    get_const_from_socket g fuel
      { socket := some ⟨al.from_node, false, 1⟩, group_path := s1.group_path } = .ok strength ∧
    get_const_from_socket g fuel
      { socket := some ⟨tl.to_node, false, 1⟩, group_path := s1.group_path } = .ok rotation ∧
    d = some { anisotropyStrength := strength, anisotropyRotation := rotation,
               tangent := (g.node tn).uv_map,
               tex_socket := { socket := some ⟨pl.from_node, false, 0⟩, group_path := s1.group_path } }

/-- C8: `detect_anisotropy_nodes` never returns a partial bundle (a
False verdict always carries no data), and a True verdict implies that
every structural link, operation code and fixed constant of the required
chain matched (2*pi within 1e-4) and that the returned data is exactly
the strength / rotation-offset / tangent-uv-map / texture-socket
bundle. -/
theorem detect_anisotropy_all_or_nothing (g : Graph) (fuel : Nat) (s1 s2 s3 : NodeSocket) :
    (∀ d, detect_anisotropy_nodes g fuel s1 s2 s3 = .ok (false, d) → d = none) ∧
    (∀ d, detect_anisotropy_nodes g fuel s1 s2 s3 = .ok (true, d) →
      anisoSuccessSpec g fuel s1 s2 s3 d) := by
  constructor
  · exact fun d h => detect_anisotropy_nodes_ok_false h
  · intro d h
    obtain ⟨aptr, rptr, tptr, tnode, tn, al, alt, h1, h2, h3, h4, h5, h6, h7, h8, h9, h10,
      h11, h12, h13, hsep⟩ := detect_anisotropy_nodes_ok_true h
    obtain ⟨ml, mlt, sl, slt, a0, a0t, a1, a1t, d1, d2, d3, d4, d5, d6, d7, d8, d9, d10,
      hrot⟩ := detect_anisotropy_sepchain_ok_true hsep
    obtain ⟨tl, tlt, rl, rlt, pi2, e1, e2, e3, e4, e5, e6, e7, e8, hpr⟩ :=
      detect_anisotropy_rotchain_ok_true hrot
    obtain ⟨cl, clt, f1, f2, f3, hmad⟩ := detect_anisotropy_principled_ok_true hpr
    obtain ⟨pl, plt, v1, v2, xl, xlt, m1, m2, m3, m4, m5, m6, m7, m8, m9, hbun⟩ :=
      detect_anisotropy_mad_ok_true hmad
    obtain ⟨hib, strength, rotation, hs, hr, hd⟩ := detect_anisotropy_bundle_ok_true hbun
    exact ⟨aptr, rptr, tptr, tnode, tn, al, alt, ml, mlt, sl, slt, a0, a0t, a1, a1t,
      tl, tlt, rl, rlt, pi2, cl, clt, pl, plt, v1, v2, xl, xlt, strength, rotation,
      h1, h2, h3, h4, h5, h6, h7, h8, h9, h10, h11, h12, h13,
      d1, d2, d3, d4, d5, d6, d7, d8, d9, d10,
      e1, e2, e3, e4, e5, e6, e7, e8, f1, f2, f3,
      m1, m2, m3, m4, m5, m6, m7, m8, m9, hib, hs, hr, hd⟩

/-- A full valid anisotropy graph: Principled BSDF (0), Tangent (1),
Math multiply (2), Separate XYZ (3), ArcTan2 (4), Math add (5), Math
divide by 2*pi (6), Vector Math multiply-add (7), image texture (8). -/
def gAniso : Graph :=
  { nodes :=
      [{ ntype := "BSDF_PRINCIPLED",
         inputs := [vSock "Anisotropic" 0, vSock "Anisotropic Rotation" 0,
                    { name := "Tangent", ty := .VECTOR, default_value := .arr [0, 0, 0] }] },
       { ntype := "TANGENT", direction_type := "UV_MAP", uv_map := "UVMap",
         outputs := [{ name := "Tangent", ty := .VECTOR, default_value := .arr [0, 0, 0] }] },
       { ntype := "MATH", operation := "MULTIPLY",
         inputs := [vSock "Value" 0, vSock "Value_001" (Q.mk 9 10)],
         outputs := [vSock "Value" 0] },
       { ntype := "SEPXYZ",
         inputs := [{ name := "Vector", ty := .VECTOR, default_value := .arr [0, 0, 0] }],
         outputs := [vSock "X" 0, vSock "Y" 0, vSock "Z" 0] },
       { ntype := "MATH", operation := "ARCTAN2",
         inputs := [vSock "Value" 0, vSock "Value_001" 0],
         outputs := [vSock "Value" 0] },
       { ntype := "MATH", operation := "ADD",
         inputs := [vSock "Value" 0, vSock "Value_001" 0],
         outputs := [vSock "Value" 0] },
       { ntype := "MATH", operation := "DIVIDE",
         inputs := [vSock "Value" 0, vSock "Value_001" (Q.mk 6283185 1000000)],
         outputs := [vSock "Value" 0] },
       { ntype := "VECT_MATH", operation := "MULTIPLY_ADD",
         inputs := [{ name := "Vector", ty := .VECTOR, default_value := .arr [0, 0, 0] },
                    { name := "Vector_001", ty := .VECTOR, default_value := .arr [2, 2, 1] },
                    { name := "Vector_002", ty := .VECTOR,
                      default_value := .arr [Q.mk (-1) 1, Q.mk (-1) 1, 0] }],
         outputs := [{ name := "Vector", ty := .VECTOR, default_value := .arr [0, 0, 0] }] },
       texNode],
    links :=
      [⟨2, 0, 0, 0⟩, ⟨6, 0, 0, 1⟩, ⟨1, 0, 0, 2⟩, ⟨3, 2, 2, 0⟩, ⟨3, 0, 4, 1⟩, ⟨3, 1, 4, 0⟩,
       ⟨4, 0, 5, 0⟩, ⟨5, 0, 6, 0⟩, ⟨7, 0, 3, 0⟩, ⟨8, 0, 7, 0⟩] }

/-- The Anisotropic input socket of the witness graph. -/
def sAnisoStrength : NodeSocket := { socket := some ⟨0, false, 0⟩, group_path := [] }

/-- The Anisotropic Rotation input socket of the witness graph. -/
def sAnisoRotation : NodeSocket := { socket := some ⟨0, false, 1⟩, group_path := [] }

/-- The Tangent input socket of the witness graph. -/
def sAnisoTangent : NodeSocket := { socket := some ⟨0, false, 2⟩, group_path := [] }

/-- The bundle the detector extracts from `gAniso`. -/
def anisoBundleW : AnisotropyData :=
  { anisotropyStrength := some (.num (Q.mk 9 10)), anisotropyRotation := some (.num 0),
    tangent := "UVMap", tex_socket := { socket := some ⟨7, false, 0⟩, group_path := [] } }

/-- Witness for C8: the full chain is detected and the theorem applies. -/
theorem detect_anisotropy_all_or_nothing_witness :
    detect_anisotropy_nodes gAniso 30 sAnisoStrength sAnisoRotation sAnisoTangent
      = .ok (true, some anisoBundleW) ∧
    anisoSuccessSpec gAniso 30 sAnisoStrength sAnisoRotation sAnisoTangent (some anisoBundleW) :=
  ⟨by decide,
   (detect_anisotropy_all_or_nothing gAniso 30 sAnisoStrength sAnisoRotation sAnisoTangent).2
     (some anisoBundleW) (by decide)⟩
